import Mathlib

/-!
Verification development for the `nibi` WebGPU particle system
(`GPUParticleSystem` in `src/components/GPUParticleSystem.js`).

The CPU-side state machine (phases, convergence easing, the macro tension
curve, the two particle groups and the deferred flow-pattern queue) is
embedded over `ℚ`; the compute-kernel fragments that the claims touch
(effective attraction, multi-layer selection, life reset) are embedded over
`ℝ` (the life reset needs a Euclidean norm) and `ℚ` where integer/affine.
Numeric literals are taken verbatim from the source.
-/

namespace Nibi

/-- The four phases of a particle group (`_phase` / `_slotB.phase`). -/
inductive Phase where
  | flow
  | forming
  | text
  | releasing
  deriving DecidableEq, Repr

/-- One row of the `MACRO_PHASES` table (the `end` key is `endTime` here). -/
structure MacroRow where
  endTime : ℚ
  noiseStr : ℚ
  noiseScl : ℚ
  spring : ℚ
  damp : ℚ
  vortex : ℚ
  wave : ℚ
  convUp : ℚ
  convDn : ℚ
  pointScale : ℚ
  deriving DecidableEq, Repr

/-- The 8-row macro progression table, verbatim from the source. -/
def MACRO_PHASES : List MacroRow :=
  [ ⟨11,  0.00008, 0.08, 0.015, 0.993, 0,       0,      0.10, 0.004, 0.6⟩,
    ⟨33,  0.00025, 0.12, 0.040, 0.982, 0.00005, 0,      0.15, 0.006, 1.0⟩,
    ⟨44,  0.00060, 0.20, 0.030, 0.975, 0.00040, 0.0003, 0.12, 0.005, 1.3⟩,
    ⟨66,  0.00030, 0.14, 0.050, 0.980, 0.00008, 0,      0.16, 0.006, 1.1⟩,
    ⟨77,  0.00080, 0.25, 0.025, 0.970, 0.00060, 0.0005, 0.10, 0.005, 1.4⟩,
    ⟨99,  0.00010, 0.06, 0.070, 0.990, 0,       0,      0.22, 0.008, 0.8⟩,
    ⟨121, 0.00015, 0.08, 0.065, 0.988, 0.00002, 0,      0.20, 0.007, 0.9⟩,
    ⟨999, 0.00004, 0.04, 0.010, 0.995, 0,       0,      0.06, 0.003, 0.4⟩ ]

/-- The continuously eased macro state (`this._macro`), 10 scalars. -/
structure MacroState where
  noiseStr : ℚ
  noiseScl : ℚ
  spring : ℚ
  damp : ℚ
  vortex : ℚ
  wave : ℚ
  gravity : ℚ
  convUp : ℚ
  convDn : ℚ
  pointScale : ℚ

/-- Per-lyric physics overrides (`_extractPhysicsOverrides` result). -/
structure PhysicsOverrides where
  spring : Option ℚ
  damping : Option ℚ
  noiseStrength : Option ℚ
  noiseScale : Option ℚ
  vortex : Option ℚ
  wave : Option ℚ
  gravity : Option ℚ
  pointScale : Option ℚ
  convUp : Option ℚ
  convDn : Option ℚ
  lerpRate : Option ℚ
  deriving DecidableEq

/-- The `options` bag accepted by `setText` / `setFlowTargets` / `setMode`. -/
structure Options where
  animation : Option String := none
  viewDirection : Option (ℚ × ℚ × ℚ) := none
  maxConvergence : Option ℚ := none
  holdDuration : Option ℚ := none
  releaseSpeed : Option ℚ := none
  dissolveMode : Option String := none
  origin : Option (ℚ × ℚ) := none
  particleGroup : ℕ := 0
  groupBPattern : Option String := none
  groupBConvergence : Option ℚ := none
  groupBOrigin : Option (ℚ × ℚ × ℚ) := none
  groupBScale : Option ℚ := none
  backgroundPattern : Option String := none
  textRatio : Option ℚ := none
  spring : Option ℚ := none
  damping : Option ℚ := none
  noiseStrength : Option ℚ := none
  noiseScale : Option ℚ := none
  vortex : Option ℚ := none
  wave : Option ℚ := none
  gravity : Option ℚ := none
  pointScale : Option ℚ := none
  convUp : Option ℚ := none
  convDn : Option ℚ := none
  lerpRate : Option ℚ := none

/-- `_extractPhysicsOverrides(options)`: returns `none` when no physics key
is present in the options. -/
def extractPhysicsOverrides (o : Options) : Option PhysicsOverrides :=
  let found := o.spring.isSome || o.damping.isSome || o.noiseStrength.isSome ||
    o.noiseScale.isSome || o.vortex.isSome || o.wave.isSome || o.gravity.isSome ||
    o.pointScale.isSome || o.convUp.isSome || o.convDn.isSome || o.lerpRate.isSome
  if found then
    some ⟨o.spring, o.damping, o.noiseStrength, o.noiseScale, o.vortex, o.wave,
          o.gravity, o.pointScale, o.convUp, o.convDn, o.lerpRate⟩
  else none

/-- `GPU_PATTERN_IDS` from `gpuFlowPatterns.js` (0 = not a GPU pattern). -/
def GPU_PATTERN_IDS : String → ℕ
  | "organic" => 1
  | "cubeWave" => 2
  | "rollingWave" => 3
  | "orbiting" => 4
  | "breathingSphere" => 5
  | "pendulumWave" => 6
  | "galaxySpin" => 7
  | "vortexDrain" => 8
  | "ripplePool" => 9
  | "flowField" => 10
  | "auroraCurtain" => 11
  | "perlinFlow3d" => 12
  | "flowingSilk" => 13
  | _ => 0

/-- Keys of `FLOW_PATTERN_GENERATORS` (flowPatterns.js), in object order. -/
def FLOW_PATTERN_GENERATOR_KEYS : List String :=
  ["organic", "branchTree", "fractalTree", "kochCurve", "randomWalk",
   "cubeWave", "rollingWave", "orbiting", "breathingSphere", "pendulumWave",
   "galaxySpin", "vortexDrain", "ripplePool", "flowField"]

/-- Keys of `FLOW_PATTERN_ANIMATORS` (flowPatterns.js). -/
def FLOW_PATTERN_ANIMATOR_KEYS : List String :=
  ["cubeWave", "rollingWave", "orbiting", "breathingSphere", "pendulumWave",
   "galaxySpin", "vortexDrain", "ripplePool", "flowField"]

/-- `TEXT_ANIMATIONS`: formation (delay, stagger) per animation name. -/
def TEXT_ANIMATIONS : String → Option (ℚ × ℚ)
  | "waveReveal" => some (0, 0.08)
  | "rainDrop" => some (0, 0)
  | "spiralPerChar" => some (0.2, 0.10)
  | "ringToChar" => some (0.2, 0.08)
  | "typewriter" => some (0, 0.18)
  | "columnDrop" => some (0, 0)
  | "centerBurst" => some (0, 0)
  | "directSnap" => some (0, 0)
  | "sphereContract" => some (0.15, 0)
  | "riseUp" => some (0, 0)
  | "scatterIn" => some (0, 0.05)
  | "gridDissolve" => some (0.2, 0)
  | "tornado" => some (0.3, 0.10)
  | "phyllotaxis" => some (0.2, 0)
  | "shockwaveRing" => some (0.15, 0)
  | "flatPlane" => some (0, 0.06)
  | _ => none

/-- Keys of `TEXT_ANIMATIONS`, in object order (`_getDefaultAnimation`). -/
def TEXT_ANIMATION_KEYS : List String :=
  ["waveReveal", "rainDrop", "spiralPerChar", "ringToChar", "typewriter",
   "columnDrop", "centerBurst", "directSnap", "sphereContract", "riseUp",
   "scatterIn", "gridDissolve", "tornado", "phyllotaxis", "shockwaveRing",
   "flatPlane"]

/-- The 8 sweep directions cycled by `_textIndex`. -/
def sweepDirs : List (ℚ × ℚ × ℚ) :=
  [(1, 0, 0), (-1, 0, 0), (0, -1, 0), (0, 1, 0),
   (0.7, 0.7, 0), (-0.7, -0.7, 0), (0, 0, 0), (0.7, -0.7, 0)]

/-- `sweepDirs[textIndex % sweepDirs.length]`. -/
def sweepDirAt (textIndex : ℕ) : ℚ × ℚ × ℚ :=
  sweepDirs.getD (textIndex % sweepDirs.length) (0, 0, 0)

/-- One per-character record of `charData` (particle-slice bookkeeping;
the rasterized point cloud itself lives in the target buffer, which the
model tracks only through a write counter). -/
structure CharRec where
  startIdx : ℕ
  cnt : ℕ
  revealed : Bool
  deriving DecidableEq

/-- Group-B phase slot (`this._slotB`). -/
structure SlotB where
  phase : Phase
  convergence : ℚ
  targetConvergence : ℚ
  lastTextTime : ℚ
  holdDurationOverride : Option ℚ
  releaseSpeed : ℚ
  dissolveMode : Option String
  maxConvergence : ℚ
  physicsOverrides : Option PhysicsOverrides
  charData : Option (List CharRec)
  formationPending : Bool
  formationStartTime : ℚ
  animType : Option String
  sweepDir : ℚ × ℚ × ℚ
  currentSweepX : ℚ
  currentSweepY : ℚ
  currentSweepZ : ℚ

/-- One entry of the `setFlowTargetsMultiLayer` argument. -/
structure FlowLayer where
  pattern : String
  origin : Option (ℚ × ℚ × ℚ) := none
  scale : Option ℚ := none

/-- The CPU-side state of `GPUParticleSystem`: constructor fields, the two
phase slots, and the uniforms the claims observe.  GPU buffers are not
value-tracked; `targetBufferWrites` counts CPU writes into the target
buffer so that "the target buffer was not touched" is statable. -/
structure Sys where
  count : ℕ
  textHoldDuration : ℚ
  convUpScale : ℚ
  convDnScale : ℚ
  pointSize : ℚ
  phase : Phase
  convergence : ℚ
  targetConvergence : ℚ
  lastTextTime : ℚ
  textIndex : ℕ
  currentText : String
  maxConvergence : ℚ
  holdDurationOverride : Option ℚ
  releaseSpeed : ℚ
  dissolveMode : Option String
  physicsOverrides : Option PhysicsOverrides
  pendingFlowPattern : Option String
  pendingFlowOptions : Options
  charData : Option (List CharRec)
  animType : String
  formationPending : Bool
  formationStartTime : ℚ
  sweepDir : ℚ × ℚ × ℚ
  currentSweepX : ℚ
  currentSweepY : ℚ
  currentSweepZ : ℚ
  macroState : MacroState
  splitPoint : ℕ
  groupBPatternActive : Bool
  slotB : SlotB
  flowPatternIdx : ℕ
  currentFlowPattern : String
  lastAnimUpdate : Option ℚ
  lastFlowTargetUpdate : ℚ
  uDeltaTime : ℚ
  uTime : ℚ
  uNoiseStrength : ℚ
  uNoiseScale : ℚ
  uSpringStrength : ℚ
  uDamping : ℚ
  uVortexStrength : ℚ
  uWaveStrength : ℚ
  uGravity : ℚ
  uWavePhase : ℚ
  uPointSize : ℚ
  uConvergence : ℚ
  uSweepX : ℚ
  uSweepY : ℚ
  uSweepZ : ℚ
  uGroupSplit : ℕ
  uConvergenceB : ℚ
  uSweepXB : ℚ
  uSweepYB : ℚ
  uSweepZB : ℚ
  uGPUPatternId : ℕ
  uGPUPatternIdB : ℕ
  uFlowOriginB : ℚ × ℚ × ℚ
  uFlowScaleB : ℚ
  uFlowOrigin : ℚ × ℚ × ℚ
  uFlowScale : ℚ
  uNumLayers : ℕ
  uLayerPatternId0 : ℕ
  uLayerPatternId1 : ℕ
  uLayerPatternId2 : ℕ
  uLayerPatternId3 : ℕ
  uLayerOrigin0 : ℚ × ℚ × ℚ
  uLayerOrigin1 : ℚ × ℚ × ℚ
  uLayerOrigin2 : ℚ × ℚ × ℚ
  uLayerOrigin3 : ℚ × ℚ × ℚ
  uLayerScale0 : ℚ
  uLayerScale1 : ℚ
  uLayerScale2 : ℚ
  uLayerScale3 : ℚ
  uBgPatternId : ℕ
  uTextParticleRatio : ℚ
  uTextPerChar : ℚ
  uFlattenZ : ℚ
  targetBufferWrites : ℕ

/-- The slot-B reset value written by `setFlowTargets` (also the
constructor's initial `_slotB`). -/
def slotBReset : SlotB :=
  { phase := Phase.flow, convergence := 0, targetConvergence := 0.1,
    lastTextTime := 0, holdDurationOverride := none, releaseSpeed := 1,
    dissolveMode := none, maxConvergence := 1, physicsOverrides := none,
    charData := none, formationPending := false, formationStartTime := -1,
    animType := none, sweepDir := (0, 0, 0),
    currentSweepX := 0, currentSweepY := 0, currentSweepZ := 0 }

/-- `_resetToSingleLayer()`. -/
def resetToSingleLayer (s : Sys) : Sys :=
  { s with uNumLayers := 1, uFlowOrigin := (0, 0, 0), uFlowScale := 1 }

/-- Index assignment of `setTextTarget` (lines assigning `startIdx` /
`count` per character within the group's particle range). -/
def buildCharData (groupStart groupCount nChars : ℕ) : List CharRec :=
  let perChar := groupCount / nChars
  (List.range nChars).map fun c =>
    { startIdx := groupStart + c * perChar,
      cnt := if c < nChars - 1 then perChar else groupCount - c * perChar,
      revealed := false }

/-- `setFlowTargets(pattern, options)`: flow is a clean break — it resets
the dual/background state, collapses the group split, re-seeds the physics
overrides from the new options, and either sets the GPU pattern uniform or
writes CPU-generated targets into the buffer. -/
def setFlowTargets (s : Sys) (pattern : String) (options : Options) : Sys :=
  let s1 :=
    { s with uFlattenZ := 0, uBgPatternId := 0, uTextParticleRatio := 1,
             uTextPerChar := 1, currentFlowPattern := pattern,
             lastFlowTargetUpdate := 0,
             splitPoint := s.count, uGroupSplit := s.count,
             uConvergenceB := 0, uSweepXB := 0, uSweepYB := 0, uSweepZB := 0,
             uGPUPatternIdB := 0, uFlowOriginB := (0, 0, 0), uFlowScaleB := 1,
             groupBPatternActive := false, slotB := slotBReset,
             physicsOverrides := extractPhysicsOverrides options }
  let gpuId := GPU_PATTERN_IDS pattern
  if gpuId ≠ 0 then
    { s1 with uGPUPatternId := gpuId }
  else
    { s1 with uGPUPatternId := 0, targetBufferWrites := s1.targetBufferWrites + 1 }

/-- One resolved (patternId, origin, scale) slot of
`setFlowTargetsMultiLayer` (`GPU_PATTERN_IDS[p] || GPU_PATTERN_IDS.organic
|| 1` fallback for active layers, disabled slots get pattern id 0). -/
def layerSlot (layers : List FlowLayer) (numLayers l : ℕ) : ℕ × (ℚ × ℚ × ℚ) × ℚ :=
  if l < numLayers then
    match layers.get? l with
    | some layer =>
        (if GPU_PATTERN_IDS layer.pattern ≠ 0 then GPU_PATTERN_IDS layer.pattern else 1,
         layer.origin.getD (0, 0, 0), layer.scale.getD 1)
    | none => (0, (0, 0, 0), 1)
  else (0, (0, 0, 0), 1)

/-- `setFlowTargetsMultiLayer(layers)`: keeps at most 4 layers. -/
def setFlowTargetsMultiLayer (s : Sys) (layers : List FlowLayer) : Sys :=
  if layers.isEmpty then s
  else
    let numLayers := min layers.length 4
    let firstId :=
      match layers.head? with
      | some l0 => if GPU_PATTERN_IDS l0.pattern ≠ 0 then GPU_PATTERN_IDS l0.pattern else 1
      | none => 1
    let sl0 := layerSlot layers numLayers 0
    let sl1 := layerSlot layers numLayers 1
    let sl2 := layerSlot layers numLayers 2
    let sl3 := layerSlot layers numLayers 3
    { s with uNumLayers := numLayers, uGPUPatternId := firstId,
             currentFlowPattern := (layers.head?.map FlowLayer.pattern).getD s.currentFlowPattern,
             uLayerPatternId0 := sl0.1, uLayerOrigin0 := sl0.2.1, uLayerScale0 := sl0.2.2,
             uLayerPatternId1 := sl1.1, uLayerOrigin1 := sl1.2.1, uLayerScale1 := sl1.2.2,
             uLayerPatternId2 := sl2.1, uLayerOrigin2 := sl2.2.1, uLayerScale2 := sl2.2.2,
             uLayerPatternId3 := sl3.1, uLayerOrigin3 := sl3.2.1, uLayerScale3 := sl3.2.2 }

/-- `_getDefaultAnimation()` (uses the already-incremented `_textIndex`). -/
def getDefaultAnimation (textIndex : ℕ) : String :=
  TEXT_ANIMATION_KEYS.getD (textIndex % TEXT_ANIMATION_KEYS.length) "directSnap"

/-- `setMode(mode, pattern, options)`.  A `flow` request made while the
group-A phase is `text`/`forming` is deferred into `_pendingFlowPattern` /
`_pendingFlowOptions`; otherwise it applies immediately. -/
def setMode (s : Sys) (mode : String) (pattern : Option String) (options : Options) : Sys :=
  let patternOpt := match pattern with
    | some p => if p = "" then none else some p
    | none => none
  let s1 :=
    if mode = "text" ∨ mode = "forming" then
      let s2 := resetToSingleLayer { s with uGPUPatternId := 0 }
      { s2 with targetConvergence := 1, sweepDir := sweepDirAt s.textIndex }
    else if mode = "flow" then
      let s2 := { s with sweepDir := ((0 : ℚ), (0 : ℚ), (0 : ℚ)) }
      if s2.phase = Phase.text ∨ s2.phase = Phase.forming then
        { s2 with pendingFlowPattern := patternOpt, pendingFlowOptions := options }
      else
        let s3 := { s2 with targetConvergence := 0.10 }
        match patternOpt with
        | some p => setFlowTargets s3 p options
        | none =>
            let p := FLOW_PATTERN_GENERATOR_KEYS.getD
              (s3.flowPatternIdx % FLOW_PATTERN_GENERATOR_KEYS.length) "organic"
            { setFlowTargets s3 p options with flowPatternIdx := s3.flowPatternIdx + 1 }
    else
      { s with uFlattenZ := 0, targetConvergence := 0, sweepDir := (0, 0, 0) }
  if mode ≠ "text" ∧ mode ≠ "forming" then { s1 with currentText := "" } else s1

/-- The group-split management at the top of `setTextTarget`. -/
def setTextSplitStep (s : Sys) (particleGroup : ℕ) (hasGroupBPattern : Bool) : Sys :=
  if particleGroup = 1 then
    { s with splitPoint := s.count / 2, uGroupSplit := s.count / 2,
             groupBPatternActive := false }
  else if particleGroup = 0 ∧ hasGroupBPattern then
    { s with splitPoint := s.count / 2, uGroupSplit := s.count / 2,
             groupBPatternActive := true }
  else if particleGroup = 0 ∧ s.groupBPatternActive then
    { s with splitPoint := s.count, uGroupSplit := s.count,
             uGPUPatternIdB := 0, groupBPatternActive := false }
  else s

/-- `options.animation || this._getDefaultAnimation()`. -/
def textAnimName (options : Options) (textIndex : ℕ) : String :=
  match options.animation with
  | some a => if a = "" then getDefaultAnimation textIndex else a
  | none => getDefaultAnimation textIndex

/-- `viewDir && (viewDir[0] !== 0 || viewDir[1] !== 0 || viewDir[2] !== 1)`. -/
def textIsAnamorphic (options : Options) : Bool :=
  match options.viewDirection with
  | some v => decide (v.1 ≠ 0 ∨ v.2.1 ≠ 0 ∨ v.2.2 ≠ 1)
  | none => false

/-- The dual-mode background-pattern uniform block (group 0 only). -/
def setTextBg (s : Sys) (particleGroup : ℕ) (options : Options) (nChars : ℕ) : Sys :=
  if particleGroup = 0 then
    match options.backgroundPattern with
    | some bp =>
        if GPU_PATTERN_IDS bp ≠ 0 then
          { s with uBgPatternId := GPU_PATTERN_IDS bp,
                   uTextParticleRatio := options.textRatio.getD 0.6,
                   uTextPerChar := ((s.count / nChars : ℕ) : ℚ) }
        else s
    | none => { s with uBgPatternId := 0, uTextParticleRatio := 1, uTextPerChar := 1 }
  else s

/-- The slot-B assignment of a `particleGroup: 1` text (group B is driven
straight to the `text` phase; formation animation is never run for it). -/
def setTextSlotB (b : SlotB) (cd : List CharRec) (animName : String)
    (sweep : ℚ × ℚ × ℚ) (options : Options) (pov : Option PhysicsOverrides) : SlotB :=
  { b with charData := some cd, formationStartTime := -1,
           formationPending := false, animType := some animName,
           sweepDir := sweep,
           holdDurationOverride := options.holdDuration,
           releaseSpeed := options.releaseSpeed.getD 1,
           dissolveMode := options.dissolveMode,
           maxConvergence := options.maxConvergence.getD 1,
           physicsOverrides := pov,
           lastTextTime := 0, targetConvergence := 1,
           phase := Phase.text }

/-- The slot-B state driven by `options.groupBPattern` alongside a group-0
text. -/
def setTextGroupBAnim (b : SlotB) (options : Options) : SlotB :=
  { b with phase := Phase.text, lastTextTime := 0,
           targetConvergence := options.groupBConvergence.getD 0.4,
           maxConvergence := options.groupBConvergence.getD 0.4,
           holdDurationOverride := options.holdDuration,
           releaseSpeed := 1, charData := none,
           dissolveMode := none, physicsOverrides := none }

/-- The `options.groupBPattern` block at the end of a group-0 `setText`. -/
def setTextGroupBApply (s : Sys) (options : Options) : Sys :=
  match options.groupBPattern with
  | some gp =>
      if GPU_PATTERN_IDS gp ≠ 0 then
        { s with uGPUPatternIdB := GPU_PATTERN_IDS gp,
                 uFlowOriginB := options.groupBOrigin.getD (0, 0, 0),
                 uFlowScaleB := options.groupBScale.getD 1,
                 slotB := setTextGroupBAnim s.slotB options }
      else s
  | none => s

/-- `setTextTarget(text, options)` (`setText` delegates here).  The canvas
rasterization is not value-tracked: `charData` keeps the per-character
index bookkeeping and the buffer write is counted. -/
def setTextTarget (s : Sys) (text : String) (options : Options) : Sys :=
  if text = "" then s
  else
    let particleGroup := options.particleGroup
    let s1 := setTextSplitStep s particleGroup options.groupBPattern.isSome
    let groupStart := if particleGroup = 1 then s1.splitPoint else 0
    let groupEnd := if particleGroup = 1 then s1.count else s1.splitPoint
    let groupCount := groupEnd - groupStart
    let s2 := resetToSingleLayer { s1 with uGPUPatternId := 0 }
    let s3 := { s2 with currentText := text, textIndex := s2.textIndex + 1,
                        physicsOverrides := extractPhysicsOverrides options }
    let animName := textAnimName options s3.textIndex
    let s4 := { s3 with animType := animName }
    let chars := text.toList
    let s5 := setTextBg s4 particleGroup options chars.length
    let cd := buildCharData groupStart groupCount chars.length
    let s6 := { s5 with uFlattenZ := if textIsAnamorphic options then 0 else 1 }
    let sweep := sweepDirAt s6.textIndex
    if particleGroup = 1 then
      { s6 with slotB := setTextSlotB s6.slotB cd animName sweep options s6.physicsOverrides,
                targetBufferWrites := s6.targetBufferWrites + 1 }
    else
      let s7 := { s6 with lastTextTime := 0,
                          maxConvergence := options.maxConvergence.getD 1,
                          holdDurationOverride := options.holdDuration,
                          releaseSpeed := options.releaseSpeed.getD 1,
                          dissolveMode := options.dissolveMode,
                          charData := some cd, formationStartTime := -1,
                          formationPending := true, sweepDir := sweep,
                          targetConvergence := 1 }
      let s8 :=
        if animName = "directSnap" then
          { s7 with targetBufferWrites := s7.targetBufferWrites + 1,
                    formationPending := false, phase := Phase.text }
        else
          { s7 with targetBufferWrites := s7.targetBufferWrites + 1,
                    phase := Phase.forming }
      setTextGroupBApply s8 options

/-- `setText` delegates to `setTextTarget`. -/
def setText (s : Sys) (text : String) (options : Options) : Sys :=
  setTextTarget s text options

/-- `setShadowSculptureTarget(textA, textB, options)`: whole sculpture at
once, straight to the `text` phase (no per-character animation). -/
def setShadowSculptureTarget (s : Sys) (textA textB : String) (options : Options) : Sys :=
  if textA = "" ∨ textB = "" then s
  else
    let s1 := resetToSingleLayer { s with uFlattenZ := 0, uGPUPatternId := 0 }
    { s1 with currentText := textA ++ "|" ++ textB, lastTextTime := 0,
              textIndex := s1.textIndex + 1,
              maxConvergence := options.maxConvergence.getD 1,
              holdDurationOverride := options.holdDuration,
              releaseSpeed := options.releaseSpeed.getD 1,
              dissolveMode := options.dissolveMode,
              physicsOverrides := extractPhysicsOverrides options,
              targetBufferWrites := s1.targetBufferWrites + 1,
              charData := none, formationPending := false,
              animType := "sculpture", phase := Phase.text,
              targetConvergence := 1, sweepDir := (0, 0, 0) }

/-- `snapToTargets()`. -/
def snapToTargets (s : Sys) : Sys :=
  { s with convergence := s.targetConvergence, uConvergence := s.targetConvergence }

/-- Constructor state with default params (`textHoldDuration` 2.5s etc.). -/
def initSys (count : ℕ) : Sys :=
  { count := count, textHoldDuration := 2.5, convUpScale := 1, convDnScale := 1,
    pointSize := 1, phase := Phase.flow, convergence := 0, targetConvergence := 0,
    lastTextTime := 0, textIndex := 0, currentText := "", maxConvergence := 1,
    holdDurationOverride := none, releaseSpeed := 1, dissolveMode := none,
    physicsOverrides := none, pendingFlowPattern := none, pendingFlowOptions := {},
    charData := none, animType := "directSnap", formationPending := false,
    formationStartTime := -1, sweepDir := (0, 0, 0),
    currentSweepX := 0, currentSweepY := 0, currentSweepZ := 0,
    macroState := ⟨0.00015, 0.10, 0.012, 0.993, 0, 0, 0, 0.025, 0.004, 0.6⟩,
    splitPoint := count, groupBPatternActive := false, slotB := slotBReset,
    flowPatternIdx := 0, currentFlowPattern := "organic", lastAnimUpdate := none,
    lastFlowTargetUpdate := 0,
    uDeltaTime := 0.016, uTime := 0, uNoiseStrength := 0.0003, uNoiseScale := 0.15,
    uSpringStrength := 0.005, uDamping := 0.988, uVortexStrength := 0,
    uWaveStrength := 0, uGravity := 0, uWavePhase := 0, uPointSize := 1,
    uConvergence := 0, uSweepX := 0, uSweepY := 0, uSweepZ := 0,
    uGroupSplit := count, uConvergenceB := 0, uSweepXB := 0, uSweepYB := 0,
    uSweepZB := 0, uGPUPatternId := 0, uGPUPatternIdB := 0,
    uFlowOriginB := (0, 0, 0), uFlowScaleB := 1,
    uFlowOrigin := (0, 0, 0), uFlowScale := 1, uNumLayers := 1,
    uLayerPatternId0 := 0, uLayerPatternId1 := 0, uLayerPatternId2 := 0,
    uLayerPatternId3 := 0,
    uLayerOrigin0 := (0, 0, 0), uLayerOrigin1 := (0, 0, 0),
    uLayerOrigin2 := (0, 0, 0), uLayerOrigin3 := (0, 0, 0),
    uLayerScale0 := 1, uLayerScale1 := 1, uLayerScale2 := 1, uLayerScale3 := 1,
    uBgPatternId := 0, uTextParticleRatio := 1, uTextPerChar := 1, uFlattenZ := 0,
    targetBufferWrites := 0 }

/-! ### The per-tick `update` pipeline, block by block in source order -/

/-- The macro-row for-loop with break: first row with `t < endTime`,
else the fallback (initialized to the last row). -/
def findActiveRow (t : ℚ) : List MacroRow → MacroRow → MacroRow
  | [], fallback => fallback
  | p :: rest, fallback => if t < p.endTime then p else findActiveRow t rest fallback

def lastMacroRow : MacroRow := MACRO_PHASES.getLastD ⟨0, 0, 0, 0, 0, 0, 0, 0, 0, 0⟩

/-- The active macro row at authored time `t`. -/
def macroPhaseAt (t : ℚ) : MacroRow := findActiveRow t MACRO_PHASES lastMacroRow

/-- Macro easing plus the macro uniform writes.  Each scalar moves by
`(target − value) · rate`, where an override replaces both the target and
the rate (rate `ov.lerpRate ?? 0.005`). -/
def macroTick (s : Sys) (t : ℚ) : Sys :=
  let row := macroPhaseAt t
  let m := s.macroState
  let rate : ℚ := 0.005
  let ov := s.physicsOverrides
  let ovRate := (ov.bind fun o => o.lerpRate).getD rate
  let step : ℚ → ℚ → Option ℚ → ℚ := fun cur amb ovVal =>
    cur + ((ovVal.getD amb) - cur) * (if ovVal.isSome then ovRate else rate)
  let m2 : MacroState :=
    { noiseStr := step m.noiseStr row.noiseStr (ov.bind fun o => o.noiseStrength),
      noiseScl := step m.noiseScl row.noiseScl (ov.bind fun o => o.noiseScale),
      spring := step m.spring row.spring (ov.bind fun o => o.spring),
      damp := step m.damp row.damp (ov.bind fun o => o.damping),
      vortex := step m.vortex row.vortex (ov.bind fun o => o.vortex),
      wave := step m.wave row.wave (ov.bind fun o => o.wave),
      gravity := step m.gravity 0 (ov.bind fun o => o.gravity),
      convUp := step m.convUp row.convUp (ov.bind fun o => o.convUp),
      convDn := step m.convDn row.convDn (ov.bind fun o => o.convDn),
      pointScale := step m.pointScale row.pointScale (ov.bind fun o => o.pointScale) }
  { s with macroState := m2,
           uNoiseStrength := m2.noiseStr, uNoiseScale := m2.noiseScl,
           uSpringStrength := m2.spring, uDamping := m2.damp,
           uVortexStrength := m2.vortex, uWaveStrength := m2.wave,
           uGravity := m2.gravity }

/-- Spec-side easing formula (from the spec's words, for comparison with
`macroTick`): `value += (targetValue − value) · rate`, default rate 0.005;
an override supplies the target and replaces the rate with the
caller-tunable `lerpRate` (default unchanged). -/
def easeSpec (ov : Option PhysicsOverrides) (ovLens : PhysicsOverrides → Option ℚ)
    (ambient cur : ℚ) : ℚ :=
  let ovVal := ov.bind ovLens
  let rate := if ovVal.isSome then (ov.bind fun o => o.lerpRate).getD 0.005 else 0.005
  cur + (ovVal.getD ambient - cur) * rate

/-- Dissolve boost: extra gravity and noise while `releasing` with
`dissolveMode = 'down'`. -/
def dissolveBoost (s : Sys) : Sys :=
  if s.phase = Phase.releasing ∧ s.dissolveMode = some "down" then
    let progress := 0.3 + 0.7 * max 0 (1 - s.convergence / 0.8)
    { s with uGravity := s.uGravity + 0.0018 * progress,
             uNoiseStrength := s.uNoiseStrength + 0.0012 * progress }
  else s

/-- The asymmetric convergence speed for group A (`convSpeed`). -/
def convSpeedA (s : Sys) : ℚ :=
  if s.targetConvergence > s.convergence then s.macroState.convUp * s.convUpScale
  else s.macroState.convDn * s.convDnScale * s.releaseSpeed

/-- Group-A convergence after the easing step and the per-lyric clamp
(the clamp applies only when `maxConvergence < 1.0`, and only from above). -/
def nextConvergenceA (s : Sys) : ℚ :=
  let c1 := s.convergence + (s.targetConvergence - s.convergence) * convSpeedA s
  if s.maxConvergence < 1 then min c1 s.maxConvergence else c1

def convergenceStepA (s : Sys) : Sys :=
  { s with convergence := nextConvergenceA s, uConvergence := nextConvergenceA s }

/-- Group-A sweep interpolation. -/
def sweepStepA (s : Sys) : Sys :=
  let sx := s.currentSweepX + (s.sweepDir.1 - s.currentSweepX) * 0.025
  let sy := s.currentSweepY + (s.sweepDir.2.1 - s.currentSweepY) * 0.025
  let sz := s.currentSweepZ + (s.sweepDir.2.2 - s.currentSweepZ) * 0.025
  { s with currentSweepX := sx, currentSweepY := sy, currentSweepZ := sz,
           uSweepX := sx, uSweepY := sy, uSweepZ := sz }

/-- Slot-B convergence easing (asymmetric, with the per-lyric clamp) and
sweep interpolation. -/
def slotBEase (s : Sys) (b : SlotB) : SlotB :=
  let bSpeed := if b.targetConvergence > b.convergence then s.macroState.convUp
                else s.macroState.convDn * b.releaseSpeed
  let c1 := b.convergence + (b.targetConvergence - b.convergence) * bSpeed
  let c2 := if b.maxConvergence < 1 then min c1 b.maxConvergence else c1
  { b with convergence := c2,
           currentSweepX := b.currentSweepX + (b.sweepDir.1 - b.currentSweepX) * 0.025,
           currentSweepY := b.currentSweepY + (b.sweepDir.2.1 - b.currentSweepY) * 0.025,
           currentSweepZ := b.currentSweepZ + (b.sweepDir.2.2 - b.currentSweepZ) * 0.025 }

/-- Slot-B `lastTextTime` recording on entering `text`. -/
def slotBRecord (b : SlotB) (elapsedTime : ℚ) : SlotB :=
  if b.phase = Phase.text ∧ b.lastTextTime = 0 then
    { b with lastTextTime := elapsedTime }
  else b

/-- Slot-B `text → releasing` once the hold duration is strictly exceeded. -/
def slotBHold (b : SlotB) (textHoldDuration elapsedTime : ℚ) : SlotB :=
  if b.phase = Phase.text ∧ b.lastTextTime > 0 ∧
     elapsedTime - b.lastTextTime > b.holdDurationOverride.getD textHoldDuration then
    { b with phase := Phase.releasing, targetConvergence := 0 }
  else b

/-- Slot-B `releasing → flow` once `convergence < 0.02` (resets the
per-lyric slot-B overrides). -/
def slotBRelease (b : SlotB) : SlotB :=
  if b.phase = Phase.releasing ∧ b.convergence < 0.02 then
    { b with phase := Phase.flow, lastTextTime := 0, targetConvergence := 0.1,
             physicsOverrides := none, dissolveMode := none, maxConvergence := 1,
             holdDurationOverride := none, releaseSpeed := 1 }
  else b

/-- Slot-B (group 1) independent convergence/sweep/phase management; runs
only while the split is active (`splitPoint < count`).  The B uniforms are
written from the eased values (before the phase transitions), as in the
source. -/
def slotBStep (s : Sys) (elapsedTime : ℚ) : Sys :=
  if s.splitPoint < s.count then
    let b1 := slotBEase s s.slotB
    let b4 := slotBRelease (slotBHold (slotBRecord b1 elapsedTime) s.textHoldDuration elapsedTime)
    { s with slotB := b4, uConvergenceB := b1.convergence,
             uSweepXB := b1.currentSweepX, uSweepYB := b1.currentSweepY,
             uSweepZB := b1.currentSweepZ }
  else s

/-- Per-character formation reveal; once every character is revealed the
phase flips from `forming` to `text`. -/
def formationStep (s : Sys) (elapsedTime : ℚ) : Sys :=
  match s.charData with
  | none => s
  | some cds =>
    if s.formationPending then
      let fst := if s.formationStartTime < 0 then elapsedTime else s.formationStartTime
      let elapsed := elapsedTime - fst
      let ad := (TEXT_ANIMATIONS s.animType).getD ((TEXT_ANIMATIONS "directSnap").getD (0, 0))
      let newCds := cds.mapIdx fun c r =>
        if r.revealed then r
        else if ad.1 + (c : ℚ) * ad.2 ≤ elapsed then { r with revealed := true } else r
      let newlyRevealed := (cds.mapIdx fun c r =>
        if r.revealed = false ∧ ad.1 + (c : ℚ) * ad.2 ≤ elapsed then 1 else 0).sum
      let allRevealed := newCds.all fun r => r.revealed
      let s1 := { s with charData := some newCds, formationStartTime := fst,
                         targetBufferWrites := s.targetBufferWrites + newlyRevealed }
      if allRevealed then { s1 with formationPending := false, phase := Phase.text }
      else s1
    else s

/-- `!this._lastAnimUpdate || elapsedTime − lastAnimUpdate > 0.25`
(an unset or zero `lastAnimUpdate` is falsy). -/
def animFlowDue (lastAnimUpdate : Option ℚ) (elapsedTime : ℚ) : Bool :=
  match lastAnimUpdate with
  | none => true
  | some last => decide (last = 0 ∨ elapsedTime - last > 0.25)

/-- Throttled CPU re-animation of animator flow patterns (`flow` phase,
CPU targets only). -/
def animFlowStep (s : Sys) (elapsedTime : ℚ) : Sys :=
  if s.phase = Phase.flow ∧ s.uGPUPatternId = 0 ∧
     s.currentFlowPattern ∈ FLOW_PATTERN_ANIMATOR_KEYS then
    if animFlowDue s.lastAnimUpdate elapsedTime then
      { s with lastAnimUpdate := some elapsedTime,
               targetBufferWrites := s.targetBufferWrites + 1 }
    else s
  else s

/-- Text time tracking: record `lastTextTime` on entering `text`. -/
def textTimeStep (s : Sys) (elapsedTime : ℚ) : Sys :=
  if s.lastTextTime = 0 ∧ s.phase = Phase.text then
    { s with lastTextTime := elapsedTime }
  else s

/-- Stage 1 of the 2-stage dissolve: `text → releasing` once the hold
duration is strictly exceeded. -/
def textToReleasing (s : Sys) (elapsedTime : ℚ) : Sys :=
  if s.phase = Phase.text ∧ s.lastTextTime > 0 ∧
     elapsedTime - s.lastTextTime > s.holdDurationOverride.getD s.textHoldDuration then
    { s with phase := Phase.releasing, targetConvergence := 0 }
  else s

/-- Stage 2: `releasing → flow` once `convergence < 0.02`; resets per-lyric
state and applies the pending (or organic) flow pattern. -/
def releasingToFlow (s : Sys) : Sys :=
  if s.phase = Phase.releasing ∧ s.convergence < 0.02 then
    let s1 := resetToSingleLayer
      { s with phase := Phase.flow, lastTextTime := 0, currentText := "",
               physicsOverrides := none, dissolveMode := none, maxConvergence := 1,
               holdDurationOverride := none, releaseSpeed := 1,
               uBgPatternId := 0, uTextParticleRatio := 1, uTextPerChar := 1 }
    let nextPattern := s1.pendingFlowPattern.getD "organic"
    let nextOptions := s1.pendingFlowOptions
    let s2 := setFlowTargets
      { s1 with pendingFlowPattern := none, pendingFlowOptions := {} }
      nextPattern nextOptions
    { s2 with targetConvergence := 0.10, sweepDir := (0, 0, 0) }
  else s

/-- `const t = musicTime || elapsedTime` (a `musicTime` of 0 is falsy). -/
def authoredTime (elapsedTime : ℚ) (mt : Option ℚ) : ℚ :=
  match mt with
  | some m => if m = 0 then elapsedTime else m
  | none => elapsedTime

/-- The state of `update` after the macro easing, the dissolve boost and
the point-scale write, just before the group-A convergence update. -/
def preConvergenceState (s : Sys) (deltaTime elapsedTime : ℚ) (mt : Option ℚ) : Sys :=
  let s0 := { s with uDeltaTime := min deltaTime 0.022, uTime := elapsedTime }
  let t := authoredTime elapsedTime mt
  let s1 := { macroTick s0 t with uWavePhase := elapsedTime * 3 }
  let s2 := dissolveBoost s1
  { s2 with uPointSize := s2.pointSize * s2.macroState.pointScale }

/-- `update({deltaTime, elapsedTime, musicTime, …})`, block by block in
source order: macro easing and uniform writes → dissolve boost → group-A
convergence → group-A sweep → slot-B management → formation reveal →
animated CPU flow patterns → text time tracking → the 2-stage dissolve. -/
def update (s : Sys) (deltaTime elapsedTime : ℚ) (mt : Option ℚ) : Sys :=
  releasingToFlow
    (textToReleasing
      (textTimeStep
        (animFlowStep
          (formationStep
            (slotBStep
              (sweepStepA
                (convergenceStepA (preConvergenceState s deltaTime elapsedTime mt)))
              elapsedTime)
            elapsedTime)
          elapsedTime)
        elapsedTime)
      elapsedTime)

/-! ### Command traces (for reachability invariants) -/

/-- One exposed command of the engine. -/
inductive Op where
  | text (t : String) (o : Options)
  | sculpture (a b : String) (o : Options)
  | flow (p : String) (o : Options)
  | multiLayer (layers : List FlowLayer)
  | mode (m : String) (p : Option String) (o : Options)
  | snap
  | tick (dt et : ℚ) (mt : Option ℚ)

def applyOp (s : Sys) : Op → Sys
  | .text t o => setTextTarget s t o
  | .sculpture a b o => setShadowSculptureTarget s a b o
  | .flow p o => setFlowTargets s p o
  | .multiLayer ls => setFlowTargetsMultiLayer s ls
  | .mode m p o => setMode s m p o
  | .snap => snapToTargets s
  | .tick dt et mt => update s dt et mt

def run (s : Sys) : List Op → Sys
  | [] => s
  | op :: rest => run (applyOp s op) rest

/-! ### Compute-kernel fragments

The per-particle TSL kernel (`_buildComputeShader`).  The affine/integer
fragments the claims touch are embedded over `ℚ`; the life-reset fragment
needs a Euclidean length and lives over `ℝ`.  GPU hash draws and
`buildGPUTargetSection` are abstracted as function parameters. -/

/-- TSL `mix(a, b, t)`. -/
def mixQ (a b t : ℚ) : ℚ := a + (b - a) * t

/-- TSL `clamp(v, lo, hi)`. -/
def clampQ (v lo hi : ℚ) : ℚ := min (max v lo) hi

/-- `inGroupB = float(i).greaterThanEqual(uGroupSplit).toFloat()`. -/
def inGroupB (i split : ℕ) : ℚ := if split ≤ i then 1 else 0

/-- Kernel: per-group convergence/sweep selection via `mix`, the sweep
delay dot product, and
`effectiveAttraction = clamp(effConv − sweepDelay·0.03 − particleHash·0.01, 0, 1)`.
`ghash` abstracts `hash(float(i).mul(0.137))`. -/
def effectiveAttraction (ghash : ℕ → ℚ) (i : ℕ) (s : Sys) (px py pz : ℚ) : ℚ :=
  let inB := inGroupB i s.uGroupSplit
  let effConv := mixQ s.uConvergence s.uConvergenceB inB
  let effSweepX := mixQ s.uSweepX s.uSweepXB inB
  let effSweepY := mixQ s.uSweepY s.uSweepYB inB
  let effSweepZ := mixQ s.uSweepZ s.uSweepZB inB
  let sweepDelay := px * effSweepX + py * effSweepY + pz * effSweepZ
  clampQ (effConv - sweepDelay * 0.03 - ghash i * 0.01) 0 1

/-- Kernel multi-layer selection (the `If uNumLayers > 1` chain): the
resolved (patternId, origin, scale) for particle `i`. -/
def kernelLayerSelect (s : Sys) (i : ℕ) : ℕ × (ℚ × ℚ × ℚ) × ℚ :=
  if 1 < s.uNumLayers then
    let layerId := i % s.uNumLayers
    if layerId < 1 then (s.uLayerPatternId0, s.uLayerOrigin0, s.uLayerScale0)
    else if layerId < 2 then (s.uLayerPatternId1, s.uLayerOrigin1, s.uLayerScale1)
    else if layerId < 3 then (s.uLayerPatternId2, s.uLayerOrigin2, s.uLayerScale2)
    else (s.uLayerPatternId3, s.uLayerOrigin3, s.uLayerScale3)
  else (s.uGPUPatternId, s.uFlowOrigin, s.uFlowScale)

def q3add (a b : ℚ × ℚ × ℚ) : ℚ × ℚ × ℚ :=
  (a.1 + b.1, a.2.1 + b.2.1, a.2.2 + b.2.2)

def q3smul (c : ℚ) (v : ℚ × ℚ × ℚ) : ℚ × ℚ × ℚ :=
  (c * v.1, c * v.2.1, c * v.2.2)

/-- GLSL-style float `mod(x, y) = x − y·floor(x/y)` (TSL `.mod`). -/
def qmod (a b : ℚ) : ℚ := a - b * ⌊a / b⌋

/-- Kernel target resolution: multi-layer selection, the dual-mode
background override (which replaces only the pattern id), pattern
evaluation `target·scale + origin`, and the group-B pattern override.
`patternEval pid i t` abstracts `buildGPUTargetSection`. -/
def kernelTarget (patternEval : ℕ → ℕ → ℚ → ℚ × ℚ × ℚ)
    (s : Sys) (i : ℕ) (t : ℚ) (target : ℚ × ℚ × ℚ) : ℚ × ℚ × ℚ :=
  let sel := kernelLayerSelect s i
  let tpc := max s.uTextPerChar 1
  let posInChar := qmod (i : ℚ) tpc
  let isBg : Bool := decide (0 < s.uBgPatternId ∧ s.uTextParticleRatio ≤ posInChar / tpc)
  let effPatternId := if isBg then s.uBgPatternId else sel.1
  let t1 := if 0 < effPatternId then
      q3add (q3smul sel.2.2 (patternEval effPatternId i t)) sel.2.1
    else target
  if s.uGroupSplit ≤ i ∧ 0 < s.uGPUPatternIdB then
    q3add (q3smul s.uFlowScaleB (patternEval s.uGPUPatternIdB i t)) s.uFlowOriginB
  else t1

noncomputable section

/-- 3-vector over `ℝ` for the life-reset fragment. -/
@[ext]
structure Vec3 where
  x : ℝ
  y : ℝ
  z : ℝ

def v3add (a b : Vec3) : Vec3 := ⟨a.x + b.x, a.y + b.y, a.z + b.z⟩

def v3sub (a b : Vec3) : Vec3 := ⟨a.x - b.x, a.y - b.y, a.z - b.z⟩

def v3smul (c : ℝ) (v : Vec3) : Vec3 := ⟨c * v.x, c * v.y, c * v.z⟩

/-- TSL `length`. -/
def v3len (v : Vec3) : ℝ := Real.sqrt (v.x ^ 2 + v.y ^ 2 + v.z ^ 2)

/-- `raw = vec3(rh1 − 0.5, rh2 − 0.5, rh3 − 0.5)` from the three
`hash(vec2(i + c, t))` draws. -/
def rawOf (rh1 rh2 rh3 : ℝ) : Vec3 := ⟨rh1 - 0.5, rh2 - 0.5, rh3 - 0.5⟩

/-- `farR = 2.5 + resetHash·2` — the respawn shell radius. -/
def farROf (resetHash : ℝ) : ℝ := 2.5 + resetHash * 2

/-- `shellPos = raw/rawLen · farR`: a point on a shell of radius `farR`
centered at the origin. -/
def shellPosOf (rh1 rh2 rh3 resetHash : ℝ) : Vec3 :=
  let raw := rawOf rh1 rh2 rh3
  let rawLen := max (v3len raw) 0.001
  v3smul (farROf resetHash / rawLen) raw

/-- `targetPos = target + raw·0.02·max(1 − ea, 0.05)` (jittered target). -/
def targetPosOf (rh1 rh2 rh3 ea : ℝ) (target : Vec3) : Vec3 :=
  v3add target (v3smul (0.02 * max (1 - ea) 0.05) (rawOf rh1 rh2 rh3))

/-- The respawn blend factor `attractSq·0.8 + effectiveAttraction·0.2`. -/
def blendOf (ea : ℝ) : ℝ := ea * ea * 0.8 + ea * 0.2

/-- Kernel life block: `life.x −= deltaTime`; if it is now below 0 the
particle moves to `shellPos + (targetPos − shellPos)·blend` and `life.x`
is replenished by `life.y`
(`pos += (resetPos − pos)·isDead; life.x += life.y·isDead`). -/
def lifeStep (rh1 rh2 rh3 resetHash ea : ℝ) (target pos : Vec3)
    (remaining total deltaTime : ℝ) : Vec3 × ℝ :=
  let rem1 := remaining - deltaTime
  let isDead : ℝ := if rem1 < 0 then 1 else 0
  let shellPos := shellPosOf rh1 rh2 rh3 resetHash
  let targetPos := targetPosOf rh1 rh2 rh3 ea target
  let resetPos := v3add shellPos (v3smul (blendOf ea) (v3sub targetPos shellPos))
  (v3add pos (v3smul isDead (v3sub resetPos pos)), rem1 + total * isDead)

end

/-! ### Block-shape lemmas: what each `update` block can and cannot touch -/

lemma convergenceStepA_eq (s : Sys) :
    convergenceStepA s =
      { s with convergence := nextConvergenceA s, uConvergence := nextConvergenceA s } := rfl

lemma sweepStepA_ex (s : Sys) :
    ∃ sx sy sz, sweepStepA s =
      { s with currentSweepX := sx, currentSweepY := sy, currentSweepZ := sz,
               uSweepX := sx, uSweepY := sy, uSweepZ := sz } := ⟨_, _, _, rfl⟩

lemma slotBStep_ex (s : Sys) (et : ℚ) :
    ∃ b cb bx bY bz, slotBStep s et =
      { s with slotB := b, uConvergenceB := cb,
               uSweepXB := bx, uSweepYB := bY, uSweepZB := bz } := by
  unfold slotBStep
  split
  · exact ⟨_, _, _, _, _, rfl⟩
  · exact ⟨s.slotB, s.uConvergenceB, s.uSweepXB, s.uSweepYB, s.uSweepZB, rfl⟩

lemma slotBStep_not_split (s : Sys) (et : ℚ) (h : ¬ s.splitPoint < s.count) :
    slotBStep s et = s := by
  unfold slotBStep
  rw [if_neg h]

lemma formationStep_ex (s : Sys) (et : ℚ) :
    ∃ cdata fst w pending ph, formationStep s et =
      { s with charData := cdata, formationStartTime := fst,
               targetBufferWrites := w, formationPending := pending, phase := ph } := by
  simp only [formationStep]
  split
  · exact ⟨_, _, _, _, _, rfl⟩
  · split_ifs <;> exact ⟨_, _, _, _, _, rfl⟩

lemma formationStep_not_pending (s : Sys) (et : ℚ) (h : s.formationPending = false) :
    formationStep s et = s := by
  simp only [formationStep]
  split
  · rfl
  · simp [h]

lemma animFlowStep_ex (s : Sys) (et : ℚ) :
    ∃ la w, animFlowStep s et = { s with lastAnimUpdate := la, targetBufferWrites := w } := by
  unfold animFlowStep
  split_ifs <;> exact ⟨_, _, rfl⟩

lemma animFlowStep_of_phase_ne (s : Sys) (et : ℚ) (h : s.phase ≠ Phase.flow) :
    animFlowStep s et = s := by
  unfold animFlowStep
  rw [if_neg]
  rintro ⟨h1, -⟩
  exact h h1

lemma textTimeStep_ex (s : Sys) (et : ℚ) :
    ∃ ltt, textTimeStep s et = { s with lastTextTime := ltt } := by
  unfold textTimeStep
  split
  · exact ⟨_, rfl⟩
  · exact ⟨s.lastTextTime, rfl⟩

lemma textTimeStep_of_phase_ne (s : Sys) (et : ℚ) (h : s.phase ≠ Phase.text) :
    textTimeStep s et = s := by
  unfold textTimeStep
  rw [if_neg]
  rintro ⟨-, h2⟩
  exact h h2

lemma textToReleasing_ex (s : Sys) (et : ℚ) :
    ∃ ph tc, textToReleasing s et = { s with phase := ph, targetConvergence := tc } := by
  unfold textToReleasing
  split
  · exact ⟨_, _, rfl⟩
  · exact ⟨s.phase, s.targetConvergence, rfl⟩

lemma textToReleasing_of_phase_ne (s : Sys) (et : ℚ) (h : s.phase ≠ Phase.text) :
    textToReleasing s et = s := by
  unfold textToReleasing
  rw [if_neg]
  rintro ⟨h1, -, -⟩
  exact h h1

lemma textToReleasing_fire (s : Sys) (et : ℚ)
    (h1 : s.phase = Phase.text) (h2 : s.lastTextTime > 0)
    (h3 : et - s.lastTextTime > s.holdDurationOverride.getD s.textHoldDuration) :
    textToReleasing s et = { s with phase := Phase.releasing, targetConvergence := 0 } := by
  unfold textToReleasing
  rw [if_pos ⟨h1, h2, h3⟩]

lemma dissolveBoost_ex (s : Sys) :
    ∃ g n, dissolveBoost s = { s with uGravity := g, uNoiseStrength := n } := by
  unfold dissolveBoost
  split
  · exact ⟨_, _, rfl⟩
  · exact ⟨s.uGravity, s.uNoiseStrength, rfl⟩

lemma preConvergenceState_ex (s : Sys) (dt et : ℚ) (mt : Option ℚ) :
    ∃ ms ud ns nc sp da vo wa gr up, preConvergenceState s dt et mt =
      { s with macroState := ms, uDeltaTime := ud, uTime := et,
               uNoiseStrength := ns, uNoiseScale := nc, uSpringStrength := sp,
               uDamping := da, uVortexStrength := vo, uWaveStrength := wa,
               uGravity := gr, uWavePhase := et * 3, uPointSize := up } := by
  simp only [preConvergenceState, macroTick, dissolveBoost]
  split
  · exact ⟨_, _, _, _, _, _, _, _, _, _, rfl⟩
  · exact ⟨_, _, _, _, _, _, _, _, _, _, rfl⟩

lemma dissolveBoost_macroState (s : Sys) : (dissolveBoost s).macroState = s.macroState := by
  unfold dissolveBoost
  split <;> rfl

lemma preConvergenceState_macroState (s : Sys) (dt et : ℚ) (mt : Option ℚ) :
    (preConvergenceState s dt et mt).macroState =
      (macroTick s (authoredTime et mt)).macroState := by
  simp only [preConvergenceState]
  rw [dissolveBoost_macroState]
  rfl

lemma releasingToFlow_macroState (s : Sys) :
    (releasingToFlow s).macroState = s.macroState := by
  simp only [releasingToFlow, setFlowTargets, resetToSingleLayer]
  split
  · split <;> rfl
  · rfl

lemma releasingToFlow_convergence (s : Sys) :
    (releasingToFlow s).convergence = s.convergence := by
  simp only [releasingToFlow, setFlowTargets, resetToSingleLayer]
  split
  · split <;> rfl
  · rfl

lemma releasingToFlow_slotB_cases (s : Sys) :
    (releasingToFlow s).slotB = s.slotB ∨ (releasingToFlow s).slotB = slotBReset := by
  simp only [releasingToFlow, setFlowTargets, resetToSingleLayer]
  split
  · split
    · exact Or.inr rfl
    · exact Or.inr rfl
  · exact Or.inl rfl

lemma releasingToFlow_skip (s : Sys) (h : ¬(s.phase = Phase.releasing ∧ s.convergence < 0.02)) :
    releasingToFlow s = s := by
  unfold releasingToFlow
  rw [if_neg h]

lemma releasingToFlow_fire (s : Sys)
    (h1 : s.phase = Phase.releasing) (h2 : s.convergence < 0.02) :
    (releasingToFlow s).phase = Phase.flow ∧
    (releasingToFlow s).targetConvergence = 0.10 ∧
    (releasingToFlow s).maxConvergence = 1 ∧
    (releasingToFlow s).holdDurationOverride = none ∧
    (releasingToFlow s).releaseSpeed = 1 ∧
    (releasingToFlow s).dissolveMode = none ∧
    (releasingToFlow s).currentFlowPattern = s.pendingFlowPattern.getD "organic" ∧
    (releasingToFlow s).pendingFlowPattern = none ∧
    (releasingToFlow s).physicsOverrides = extractPhysicsOverrides s.pendingFlowOptions ∧
    (releasingToFlow s).uNumLayers = 1 ∧
    (releasingToFlow s).uBgPatternId = 0 ∧
    (GPU_PATTERN_IDS (s.pendingFlowPattern.getD "organic") ≠ 0 →
      (releasingToFlow s).uGPUPatternId = GPU_PATTERN_IDS (s.pendingFlowPattern.getD "organic")) := by
  simp only [releasingToFlow, setFlowTargets, resetToSingleLayer]
  split
  next hcond =>
    split
    next hg => exact ⟨rfl, rfl, rfl, rfl, rfl, rfl, rfl, rfl, rfl, rfl, rfl, fun _ => rfl⟩
    next hg =>
      exact ⟨rfl, rfl, rfl, rfl, rfl, rfl, rfl, rfl, rfl, rfl, rfl, fun hgg => absurd hgg hg⟩
  next hcond => exact absurd ⟨h1, h2⟩ hcond



lemma clampQ_nonneg (v : ℚ) : 0 ≤ clampQ v 0 1 :=
  le_min (le_max_right _ _) zero_le_one

lemma clampQ_le_one (v : ℚ) : clampQ v 0 1 ≤ 1 := min_le_right _ _

/-- Claim C5: for every particle on every tick the kernel computes
`effectiveAttraction = clamp(convergence − sweepDelay·0.03 − perParticleHash·0.01, 0, 1)`,
where `convergence` is the particle's group convergence uniform,
`sweepDelay` is the dot product of the particle's position with its
group's eased sweep vector, and the per-particle hash is a deterministic
function of the particle index; the result lies in [0, 1]. -/
theorem C5_effective_attraction (ghash : ℕ → ℚ) (i : ℕ) (s : Sys) (px py pz : ℚ) :
    (i < s.uGroupSplit →
      effectiveAttraction ghash i s px py pz =
        clampQ (s.uConvergence
          - (px * s.uSweepX + py * s.uSweepY + pz * s.uSweepZ) * 0.03
          - ghash i * 0.01) 0 1) ∧
    (s.uGroupSplit ≤ i →
      effectiveAttraction ghash i s px py pz =
        clampQ (s.uConvergenceB
          - (px * s.uSweepXB + py * s.uSweepYB + pz * s.uSweepZB) * 0.03
          - ghash i * 0.01) 0 1) ∧
    0 ≤ effectiveAttraction ghash i s px py pz ∧
    effectiveAttraction ghash i s px py pz ≤ 1 := by
  refine ⟨fun h => ?_, fun h => ?_, ?_, ?_⟩
  · have hng : ¬ s.uGroupSplit ≤ i := Nat.not_le.mpr h
    simp only [effectiveAttraction, inGroupB, if_neg hng, mixQ, clampQ]
    ring_nf
  · simp only [effectiveAttraction, inGroupB, if_pos h, mixQ, clampQ]
    ring_nf
  · simp only [effectiveAttraction]
    exact clampQ_nonneg _
  · simp only [effectiveAttraction]
    exact clampQ_le_one _

/-- Witness for C5 at a concrete group-A particle. -/
theorem C5_effective_attraction_witness :
    0 < (initSys 10).uGroupSplit ∧
    effectiveAttraction (fun _ => 0) 0 (initSys 10) 1 0 0 = 0 := by
  refine ⟨by decide, ?_⟩
  have h := (C5_effective_attraction (fun _ => 0) 0 (initSys 10) 1 0 0).1 (by decide)
  rw [h]
  simp [initSys, clampQ]

lemma findActiveRow_eq_find (t : ℚ) (l : List MacroRow) (fb : MacroRow) :
    findActiveRow t l fb = (l.find? fun r => decide (t < r.endTime)).getD fb := by
  induction l with
  | nil => rfl
  | cons p rest ih =>
      unfold findActiveRow
      by_cases h : t < p.endTime
      · simp [List.find?_cons, h]
      · simp [List.find?_cons, h, ih]

lemma convergenceStepA_macroState (s : Sys) :
    (convergenceStepA s).macroState = s.macroState := rfl

lemma sweepStepA_macroState (s : Sys) : (sweepStepA s).macroState = s.macroState := rfl

lemma slotBStep_macroState (s : Sys) (et : ℚ) :
    (slotBStep s et).macroState = s.macroState := by
  unfold slotBStep
  split <;> rfl

lemma formationStep_macroState (s : Sys) (et : ℚ) :
    (formationStep s et).macroState = s.macroState := by
  obtain ⟨a, b, c, d, e, h⟩ := formationStep_ex s et
  rw [h]

lemma animFlowStep_macroState (s : Sys) (et : ℚ) :
    (animFlowStep s et).macroState = s.macroState := by
  obtain ⟨a, b, h⟩ := animFlowStep_ex s et
  rw [h]

lemma textTimeStep_macroState (s : Sys) (et : ℚ) :
    (textTimeStep s et).macroState = s.macroState := by
  obtain ⟨a, h⟩ := textTimeStep_ex s et
  rw [h]

lemma textToReleasing_macroState (s : Sys) (et : ℚ) :
    (textToReleasing s et).macroState = s.macroState := by
  obtain ⟨a, b, h⟩ := textToReleasing_ex s et
  rw [h]

lemma update_macroState (s : Sys) (dt et : ℚ) (mt : Option ℚ) :
    (update s dt et mt).macroState = (macroTick s (authoredTime et mt)).macroState := by
  unfold update
  rw [releasingToFlow_macroState, textToReleasing_macroState, textTimeStep_macroState,
      animFlowStep_macroState, formationStep_macroState, slotBStep_macroState,
      sweepStepA_macroState, convergenceStepA_macroState, preConvergenceState_macroState]

/-- Claim C9: the active macro row on a tick is the first table row whose
end time strictly exceeds the authored time (the last row if none), and
every MacroState scalar eases as `value += (targetValue − value)·rate`
with rate 0.005; a per-command override supplies `targetValue` for the
scalars it carries and replaces the rate with the caller-supplied
`lerpRate` (default 0.005); scalars without an override keep the ambient
row value (0 for gravity, which has no row entry) and the 0.005 rate. -/
theorem C9_macro_curve (s : Sys) (dt et : ℚ) (mt : Option ℚ) :
    (∀ t : ℚ, macroPhaseAt t =
      (MACRO_PHASES.find? fun r => decide (t < r.endTime)).getD lastMacroRow) ∧
    (update s dt et mt).macroState = (macroTick s (authoredTime et mt)).macroState ∧
    (∀ t : ℚ, (macroTick s t).macroState =
      { noiseStr := easeSpec s.physicsOverrides (fun o => o.noiseStrength)
          (macroPhaseAt t).noiseStr s.macroState.noiseStr,
        noiseScl := easeSpec s.physicsOverrides (fun o => o.noiseScale)
          (macroPhaseAt t).noiseScl s.macroState.noiseScl,
        spring := easeSpec s.physicsOverrides (fun o => o.spring)
          (macroPhaseAt t).spring s.macroState.spring,
        damp := easeSpec s.physicsOverrides (fun o => o.damping)
          (macroPhaseAt t).damp s.macroState.damp,
        vortex := easeSpec s.physicsOverrides (fun o => o.vortex)
          (macroPhaseAt t).vortex s.macroState.vortex,
        wave := easeSpec s.physicsOverrides (fun o => o.wave)
          (macroPhaseAt t).wave s.macroState.wave,
        gravity := easeSpec s.physicsOverrides (fun o => o.gravity)
          0 s.macroState.gravity,
        convUp := easeSpec s.physicsOverrides (fun o => o.convUp)
          (macroPhaseAt t).convUp s.macroState.convUp,
        convDn := easeSpec s.physicsOverrides (fun o => o.convDn)
          (macroPhaseAt t).convDn s.macroState.convDn,
        pointScale := easeSpec s.physicsOverrides (fun o => o.pointScale)
          (macroPhaseAt t).pointScale s.macroState.pointScale }) := by
  refine ⟨fun t => findActiveRow_eq_find t MACRO_PHASES lastMacroRow,
          update_macroState s dt et mt, fun t => rfl⟩

lemma v3len_smul (c : ℝ) (v : Vec3) : v3len (v3smul c v) = |c| * v3len v := by
  unfold v3len v3smul
  rw [mul_pow, mul_pow, mul_pow, ← mul_add, ← mul_add,
      Real.sqrt_mul (sq_nonneg c), Real.sqrt_sq_eq_abs]

lemma shellPos_len (rh1 rh2 rh3 resetHash : ℝ)
    (hlen : 0.001 ≤ v3len (rawOf rh1 rh2 rh3)) (hr0 : 0 ≤ resetHash) :
    v3len (shellPosOf rh1 rh2 rh3 resetHash) = farROf resetHash := by
  have hpos : 0 < v3len (rawOf rh1 rh2 rh3) := lt_of_lt_of_le (by norm_num) hlen
  have hfar : 0 ≤ farROf resetHash := by unfold farROf; nlinarith
  simp only [shellPosOf]
  rw [max_eq_left hlen, v3len_smul, abs_of_nonneg (div_nonneg hfar hpos.le),
      div_mul_cancel₀ _ hpos.ne']

/-- Claim C4 (amended): when `remaining − deltaTime` crosses below 0 the
kernel moves the particle to `shellPos + blend·(targetPos − shellPos)`,
where `shellPos` lies on a shell of radius `farR ∈ [2.5, 4.5]` around the
origin (not around the target), `targetPos` is the target plus a small
hash jitter, and `blend = 0.8·ea² + 0.2·ea` grows monotonically with the
effective attraction — 0 at `ea = 0` (the particle lands on the origin
shell), so the respawn point is pulled progressively closer to the target
as `ea → 1`; `remaining` is replenished by `total`. -/
theorem C4_life_reset (rh1 rh2 rh3 resetHash ea : ℝ) (target pos : Vec3)
    (remaining total deltaTime : ℝ)
    (hdead : remaining - deltaTime < 0)
    (hlen : 0.001 ≤ v3len (rawOf rh1 rh2 rh3))
    (hr0 : 0 ≤ resetHash) (hr1 : resetHash ≤ 1) :
    (lifeStep rh1 rh2 rh3 resetHash ea target pos remaining total deltaTime).2
      = remaining - deltaTime + total ∧
    (lifeStep rh1 rh2 rh3 resetHash ea target pos remaining total deltaTime).1
      = v3add (shellPosOf rh1 rh2 rh3 resetHash)
          (v3smul (blendOf ea)
            (v3sub (targetPosOf rh1 rh2 rh3 ea target)
              (shellPosOf rh1 rh2 rh3 resetHash))) ∧
    v3len (shellPosOf rh1 rh2 rh3 resetHash) = farROf resetHash ∧
    2.5 ≤ farROf resetHash ∧ farROf resetHash ≤ 4.5 ∧
    (ea = 0 →
      (lifeStep rh1 rh2 rh3 resetHash ea target pos remaining total deltaTime).1
        = shellPosOf rh1 rh2 rh3 resetHash) ∧
    (∀ a b : ℝ, 0 ≤ a → a ≤ b → blendOf a ≤ blendOf b) := by
  have hd1 : (if remaining - deltaTime < 0 then (1 : ℝ) else 0) = 1 := if_pos hdead
  refine ⟨?_, ?_, shellPos_len rh1 rh2 rh3 resetHash hlen hr0,
          by unfold farROf; nlinarith, by unfold farROf; nlinarith, ?_, ?_⟩
  · simp only [lifeStep, hd1]
    ring
  · simp only [lifeStep, hd1]
    ext <;> simp [v3add, v3sub, v3smul]
  · intro h0
    subst h0
    simp only [lifeStep, hd1, blendOf]
    ext <;> simp [v3add, v3sub, v3smul]
  · intro a b ha hab
    unfold blendOf
    nlinarith

lemma rawEx_len : v3len (rawOf 1 0.5 0.5) = 0.5 := by
  unfold v3len rawOf
  rw [show ((1 : ℝ) - 0.5) ^ 2 + ((0.5 : ℝ) - 0.5) ^ 2 + ((0.5 : ℝ) - 0.5) ^ 2
        = (0.5 : ℝ) ^ 2 by norm_num]
  rw [Real.sqrt_sq (by norm_num)]

lemma shellPosEx : shellPosOf 1 0.5 0.5 0 = (⟨2.5, 0, 0⟩ : Vec3) := by
  simp only [shellPosOf, rawEx_len]
  rw [max_eq_left (by norm_num)]
  unfold farROf rawOf v3smul
  ext <;> norm_num

lemma lifeStepEx :
    (lifeStep 1 0.5 0.5 0 0 ⟨10, 0, 0⟩ ⟨0, 0, 0⟩ 0 7 0.016).1 = (⟨2.5, 0, 0⟩ : Vec3) := by
  simp only [lifeStep]
  rw [if_pos (by norm_num : (0 : ℝ) - 0.016 < 0), shellPosEx]
  unfold targetPosOf rawOf blendOf v3add v3sub v3smul
  ext <;> norm_num

/-- Claim C4 counterexample: with hash draws (1, 0.5, 0.5) and reset hash
0, a dead particle with zero effective attraction and target (10,0,0)
respawns at (2.5,0,0) — on the shell around the origin — at distance 7.5
from its target: not within the claimed 2.5–4.5 shell around the target,
and not at the exact target despite the zero attraction. -/
theorem C4_life_reset_counterexample :
    (lifeStep 1 0.5 0.5 0 0 ⟨10, 0, 0⟩ ⟨0, 0, 0⟩ 0 7 0.016).1 = (⟨2.5, 0, 0⟩ : Vec3) ∧
    v3len (v3sub (lifeStep 1 0.5 0.5 0 0 ⟨10, 0, 0⟩ ⟨0, 0, 0⟩ 0 7 0.016).1 ⟨10, 0, 0⟩)
      = 7.5 ∧
    ¬ (2.5 ≤ v3len (v3sub (lifeStep 1 0.5 0.5 0 0 ⟨10, 0, 0⟩ ⟨0, 0, 0⟩ 0 7 0.016).1
          ⟨10, 0, 0⟩) ∧
       v3len (v3sub (lifeStep 1 0.5 0.5 0 0 ⟨10, 0, 0⟩ ⟨0, 0, 0⟩ 0 7 0.016).1
          ⟨10, 0, 0⟩) ≤ 4.5) ∧
    (lifeStep 1 0.5 0.5 0 0 ⟨10, 0, 0⟩ ⟨0, 0, 0⟩ 0 7 0.016).1 ≠ (⟨10, 0, 0⟩ : Vec3) := by
  have hdist : v3len (v3sub (lifeStep 1 0.5 0.5 0 0 ⟨10, 0, 0⟩ ⟨0, 0, 0⟩ 0 7 0.016).1
      ⟨10, 0, 0⟩) = 7.5 := by
    rw [lifeStepEx]
    unfold v3len v3sub
    rw [show ((2.5 : ℝ) - 10) ^ 2 + ((0 : ℝ) - 0) ^ 2 + ((0 : ℝ) - 0) ^ 2
          = (7.5 : ℝ) ^ 2 by norm_num]
    rw [Real.sqrt_sq (by norm_num)]
  refine ⟨lifeStepEx, hdist, ?_, ?_⟩
  · rw [hdist]
    rintro ⟨-, hle⟩
    norm_num at hle
  · rw [lifeStepEx]
    intro h
    have hx := congrArg Vec3.x h
    norm_num at hx

/-- Witness for the amended C4 at the counterexample's concrete input. -/
theorem C4_life_reset_witness :
    ((0 : ℝ) - 0.016 < 0) ∧ (0.001 ≤ v3len (rawOf 1 0.5 0.5)) ∧
    (lifeStep 1 0.5 0.5 0 0 ⟨10, 0, 0⟩ ⟨0, 0, 0⟩ 0 7 0.016).2 = 0 - 0.016 + 7 := by
  refine ⟨by norm_num, by rw [rawEx_len]; norm_num, ?_⟩
  exact (C4_life_reset 1 0.5 0.5 0 0 ⟨10, 0, 0⟩ ⟨0, 0, 0⟩ 0 7 0.016 (by norm_num)
    (by rw [rawEx_len]; norm_num) (by norm_num) (by norm_num)).1

/-- Claim C6: `setFlowTargetsMultiLayer` with exactly 2 layers sets the
layer-count uniform to 2 and disables layers 2 and 3 (pattern id 0); in
general at most 4 layers are kept; and in the kernel each particle
selects its layer as `particleIndex mod layerCount`, applying that
layer's pattern, origin offset and scale (stated with the dual-background
and group-B overrides inactive, the multi-layer configuration). -/
theorem C6_multilayer (s : Sys) (l1 l2 : FlowLayer) (layers : List FlowLayer)
    (patternEval : ℕ → ℕ → ℚ → ℚ × ℚ × ℚ) (i : ℕ) (t : ℚ) (target : ℚ × ℚ × ℚ)
    (hn2 : 2 ≤ s.uNumLayers) (hn4 : s.uNumLayers ≤ 4)
    (hbg : s.uBgPatternId = 0)
    (hgb : i < s.uGroupSplit ∨ s.uGPUPatternIdB = 0) :
    ((setFlowTargetsMultiLayer s [l1, l2]).uNumLayers = 2 ∧
     (setFlowTargetsMultiLayer s [l1, l2]).uLayerPatternId2 = 0 ∧
     (setFlowTargetsMultiLayer s [l1, l2]).uLayerPatternId3 = 0) ∧
    (layers ≠ [] →
      (setFlowTargetsMultiLayer s layers).uNumLayers = min layers.length 4) ∧
    kernelLayerSelect s i =
      [(s.uLayerPatternId0, s.uLayerOrigin0, s.uLayerScale0),
       (s.uLayerPatternId1, s.uLayerOrigin1, s.uLayerScale1),
       (s.uLayerPatternId2, s.uLayerOrigin2, s.uLayerScale2),
       (s.uLayerPatternId3, s.uLayerOrigin3, s.uLayerScale3)].getD
        (i % s.uNumLayers) (0, (0, 0, 0), 1) ∧
    kernelTarget patternEval s i t target =
      (if 0 < (kernelLayerSelect s i).1 then
        q3add (q3smul (kernelLayerSelect s i).2.2
          (patternEval (kernelLayerSelect s i).1 i t)) (kernelLayerSelect s i).2.1
      else target) := by
  refine ⟨⟨?_, ?_, ?_⟩, ?_, ?_, ?_⟩
  · simp [setFlowTargetsMultiLayer]
  · simp [setFlowTargetsMultiLayer, layerSlot]
  · simp [setFlowTargetsMultiLayer, layerSlot]
  · intro h
    have hne : layers.isEmpty = false := by
      cases layers with
      | nil => exact absurd rfl h
      | cons a l => rfl
    simp [setFlowTargetsMultiLayer, hne]
  · have h234 : s.uNumLayers = 2 ∨ s.uNumLayers = 3 ∨ s.uNumLayers = 4 := by omega
    rcases h234 with h | h | h
    · have h2 : i % 2 = 0 ∨ i % 2 = 1 := by omega
      unfold kernelLayerSelect
      rw [h]
      rcases h2 with h2 | h2 <;> simp [h2]
    · have h2 : i % 3 = 0 ∨ i % 3 = 1 ∨ i % 3 = 2 := by omega
      unfold kernelLayerSelect
      rw [h]
      rcases h2 with h2 | h2 | h2 <;> simp [h2]
    · have h2 : i % 4 = 0 ∨ i % 4 = 1 ∨ i % 4 = 2 ∨ i % 4 = 3 := by omega
      unfold kernelLayerSelect
      rw [h]
      rcases h2 with h2 | h2 | h2 | h2 <;> simp [h2]
  · have hgbF : ¬ (s.uGroupSplit ≤ i ∧ 0 < s.uGPUPatternIdB) := by
      rcases hgb with h | h
      · exact fun hc => absurd hc.1 (Nat.not_le.mpr h)
      · exact fun hc => by rw [h] at hc; exact absurd hc.2 (lt_irrefl 0)
    simp only [kernelTarget]
    rw [if_neg hgbF]
    simp [hbg]

/-- Witness for C6: a concrete 2-layer call (cubeWave + offset orbiting);
particle 3 selects layer 1 (3 mod 2). -/
theorem C6_multilayer_witness :
    2 ≤ (setFlowTargetsMultiLayer (initSys 8)
          [⟨"cubeWave", none, none⟩, ⟨"orbiting", some (1, 0, 0), some 2⟩]).uNumLayers ∧
    (setFlowTargetsMultiLayer (initSys 8)
          [⟨"cubeWave", none, none⟩, ⟨"orbiting", some (1, 0, 0), some 2⟩]).uBgPatternId = 0 ∧
    kernelLayerSelect (setFlowTargetsMultiLayer (initSys 8)
          [⟨"cubeWave", none, none⟩, ⟨"orbiting", some (1, 0, 0), some 2⟩]) 3
      = (4, (1, 0, 0), 2) := by
  refine ⟨by decide, by decide, ?_⟩
  have h := (C6_multilayer
      (setFlowTargetsMultiLayer (initSys 8)
        [⟨"cubeWave", none, none⟩, ⟨"orbiting", some (1, 0, 0), some 2⟩])
      ⟨"organic", none, none⟩ ⟨"organic", none, none⟩ []
      (fun _ _ _ => (0, 0, 0)) 3 0 (0, 0, 0)
      (by decide) (by decide) (by decide) (Or.inl (by decide))).2.2.1
  rw [h]
  decide

lemma textTimeStep_of_lastTextTime_ne (s : Sys) (et : ℚ) (h : s.lastTextTime ≠ 0) :
    textTimeStep s et = s := by
  unfold textTimeStep
  rw [if_neg]
  rintro ⟨h1, -⟩
  exact h h1

lemma slotBStep_phase (s : Sys) (et : ℚ) : (slotBStep s et).phase = s.phase := by
  obtain ⟨b, cb, bx, bY, bz, h⟩ := slotBStep_ex s et
  rw [h]

lemma slotBStep_convergence (s : Sys) (et : ℚ) :
    (slotBStep s et).convergence = s.convergence := by
  obtain ⟨b, cb, bx, bY, bz, h⟩ := slotBStep_ex s et
  rw [h]

lemma slotBStep_formationPending (s : Sys) (et : ℚ) :
    (slotBStep s et).formationPending = s.formationPending := by
  obtain ⟨b, cb, bx, bY, bz, h⟩ := slotBStep_ex s et
  rw [h]

lemma slotBStep_pendingFlowPattern (s : Sys) (et : ℚ) :
    (slotBStep s et).pendingFlowPattern = s.pendingFlowPattern := by
  obtain ⟨b, cb, bx, bY, bz, h⟩ := slotBStep_ex s et
  rw [h]

lemma slotBStep_pendingFlowOptions (s : Sys) (et : ℚ) :
    (slotBStep s et).pendingFlowOptions = s.pendingFlowOptions := by
  obtain ⟨b, cb, bx, bY, bz, h⟩ := slotBStep_ex s et
  rw [h]

lemma slotBStep_lastTextTime (s : Sys) (et : ℚ) :
    (slotBStep s et).lastTextTime = s.lastTextTime := by
  obtain ⟨b, cb, bx, bY, bz, h⟩ := slotBStep_ex s et
  rw [h]

lemma slotBStep_holdDurationOverride (s : Sys) (et : ℚ) :
    (slotBStep s et).holdDurationOverride = s.holdDurationOverride := by
  obtain ⟨b, cb, bx, bY, bz, h⟩ := slotBStep_ex s et
  rw [h]

lemma slotBStep_textHoldDuration (s : Sys) (et : ℚ) :
    (slotBStep s et).textHoldDuration = s.textHoldDuration := by
  obtain ⟨b, cb, bx, bY, bz, h⟩ := slotBStep_ex s et
  rw [h]

lemma preConvergenceState_phase (s : Sys) (dt et : ℚ) (mt : Option ℚ) :
    (preConvergenceState s dt et mt).phase = s.phase := by
  obtain ⟨ms, ud, ns, nc, sp, da, vo, wa, gr, up, h⟩ := preConvergenceState_ex s dt et mt
  rw [h]

lemma preConvergenceState_formationPending (s : Sys) (dt et : ℚ) (mt : Option ℚ) :
    (preConvergenceState s dt et mt).formationPending = s.formationPending := by
  obtain ⟨ms, ud, ns, nc, sp, da, vo, wa, gr, up, h⟩ := preConvergenceState_ex s dt et mt
  rw [h]

lemma preConvergenceState_pendingFlowPattern (s : Sys) (dt et : ℚ) (mt : Option ℚ) :
    (preConvergenceState s dt et mt).pendingFlowPattern = s.pendingFlowPattern := by
  obtain ⟨ms, ud, ns, nc, sp, da, vo, wa, gr, up, h⟩ := preConvergenceState_ex s dt et mt
  rw [h]

lemma preConvergenceState_pendingFlowOptions (s : Sys) (dt et : ℚ) (mt : Option ℚ) :
    (preConvergenceState s dt et mt).pendingFlowOptions = s.pendingFlowOptions := by
  obtain ⟨ms, ud, ns, nc, sp, da, vo, wa, gr, up, h⟩ := preConvergenceState_ex s dt et mt
  rw [h]

lemma preConvergenceState_lastTextTime (s : Sys) (dt et : ℚ) (mt : Option ℚ) :
    (preConvergenceState s dt et mt).lastTextTime = s.lastTextTime := by
  obtain ⟨ms, ud, ns, nc, sp, da, vo, wa, gr, up, h⟩ := preConvergenceState_ex s dt et mt
  rw [h]

lemma preConvergenceState_holdDurationOverride (s : Sys) (dt et : ℚ) (mt : Option ℚ) :
    (preConvergenceState s dt et mt).holdDurationOverride = s.holdDurationOverride := by
  obtain ⟨ms, ud, ns, nc, sp, da, vo, wa, gr, up, h⟩ := preConvergenceState_ex s dt et mt
  rw [h]

lemma preConvergenceState_textHoldDuration (s : Sys) (dt et : ℚ) (mt : Option ℚ) :
    (preConvergenceState s dt et mt).textHoldDuration = s.textHoldDuration := by
  obtain ⟨ms, ud, ns, nc, sp, da, vo, wa, gr, up, h⟩ := preConvergenceState_ex s dt et mt
  rw [h]

/-- The releasing→flow tick of `update`, fully characterized. -/
lemma update_releasing_fire (s : Sys) (dt et : ℚ) (mt : Option ℚ)
    (hphase : s.phase = Phase.releasing)
    (hform : s.formationPending = false)
    (hconv : nextConvergenceA (preConvergenceState s dt et mt) < 0.02) :
    (update s dt et mt).phase = Phase.flow ∧
    (update s dt et mt).targetConvergence = 0.10 ∧
    (update s dt et mt).maxConvergence = 1 ∧
    (update s dt et mt).holdDurationOverride = none ∧
    (update s dt et mt).releaseSpeed = 1 ∧
    (update s dt et mt).dissolveMode = none ∧
    (update s dt et mt).currentFlowPattern = s.pendingFlowPattern.getD "organic" ∧
    (update s dt et mt).pendingFlowPattern = none ∧
    (update s dt et mt).physicsOverrides = extractPhysicsOverrides s.pendingFlowOptions := by
  have hmidphase :
      (slotBStep (sweepStepA (convergenceStepA (preConvergenceState s dt et mt))) et).phase
        = Phase.releasing := by
    rw [slotBStep_phase]
    show (preConvergenceState s dt et mt).phase = Phase.releasing
    rw [preConvergenceState_phase]
    exact hphase
  have hmidpend :
      (slotBStep (sweepStepA (convergenceStepA (preConvergenceState s dt et mt))) et).formationPending
        = false := by
    rw [slotBStep_formationPending]
    show (preConvergenceState s dt et mt).formationPending = false
    rw [preConvergenceState_formationPending]
    exact hform
  have hmidconv :
      (slotBStep (sweepStepA (convergenceStepA (preConvergenceState s dt et mt))) et).convergence
        = nextConvergenceA (preConvergenceState s dt et mt) := by
    rw [slotBStep_convergence]
    rfl
  have hmidppat :
      (slotBStep (sweepStepA (convergenceStepA (preConvergenceState s dt et mt))) et).pendingFlowPattern
        = s.pendingFlowPattern := by
    rw [slotBStep_pendingFlowPattern]
    show (preConvergenceState s dt et mt).pendingFlowPattern = s.pendingFlowPattern
    rw [preConvergenceState_pendingFlowPattern]
  have hmidpopt :
      (slotBStep (sweepStepA (convergenceStepA (preConvergenceState s dt et mt))) et).pendingFlowOptions
        = s.pendingFlowOptions := by
    rw [slotBStep_pendingFlowOptions]
    show (preConvergenceState s dt et mt).pendingFlowOptions = s.pendingFlowOptions
    rw [preConvergenceState_pendingFlowOptions]
  unfold update
  rw [formationStep_not_pending _ et hmidpend]
  rw [animFlowStep_of_phase_ne _ et (by rw [hmidphase]; decide)]
  rw [textTimeStep_of_phase_ne _ et (by rw [hmidphase]; decide)]
  rw [textToReleasing_of_phase_ne _ et (by rw [hmidphase]; decide)]
  obtain ⟨f1, f2, f3, f4, f5, f6, f7, f8, f9, -, -, -⟩ :=
    releasingToFlow_fire _ hmidphase (by rw [hmidconv]; exact hconv)
  refine ⟨f1, f2, f3, f4, f5, f6, ?_, f8, ?_⟩
  · rw [f7, hmidppat]
  · rw [f9, hmidpopt]

/-- Claim C1 (amended): on the tick in which group A is `releasing` and
the freshly updated convergence is below 0.02, `update` sets the phase to
`flow`, sets `targetConvergence` to the default flow value 0.10, resets
the per-lyric overrides (maxConvergence 1.0, no holdDuration override,
releaseSpeed 1.0, no dissolve mode) and applies the flow pattern queued
via `setMode('flow', …)` during the hold ('organic' when none was
queued); the physics overrides are re-seeded from the queued flow options
(so they are none only when the queued options carry no physics keys). -/
theorem C1_releasing_to_flow (s : Sys) (dt et : ℚ) (mt : Option ℚ)
    (hphase : s.phase = Phase.releasing)
    (hform : s.formationPending = false)
    (hconv : nextConvergenceA (preConvergenceState s dt et mt) < 0.02) :
    (update s dt et mt).phase = Phase.flow ∧
    (update s dt et mt).targetConvergence = 0.10 ∧
    (update s dt et mt).maxConvergence = 1 ∧
    (update s dt et mt).holdDurationOverride = none ∧
    (update s dt et mt).releaseSpeed = 1 ∧
    (update s dt et mt).dissolveMode = none ∧
    (update s dt et mt).currentFlowPattern = s.pendingFlowPattern.getD "organic" ∧
    (update s dt et mt).pendingFlowPattern = none ∧
    (update s dt et mt).physicsOverrides = extractPhysicsOverrides s.pendingFlowOptions :=
  update_releasing_fire s dt et mt hphase hform hconv

lemma nextConvergenceA_still (s : Sys) (dt et : ℚ) (mt : Option ℚ)
    (hc : s.convergence = 0) (ht : s.targetConvergence = 0) (hm : s.maxConvergence = 1) :
    nextConvergenceA (preConvergenceState s dt et mt) < 0.02 := by
  obtain ⟨ms, ud, ns, nc, sp, da, vo, wa, gr, up, h⟩ := preConvergenceState_ex s dt et mt
  rw [h]
  simp only [nextConvergenceA, convSpeedA, hc, ht, hm]
  norm_num

/-- Counterexample to C1 as stated: when the flow request queued during
the hold carried physics overrides (here `spring`), the releasing→flow
transition does NOT leave the physics overrides at none — `setFlowTargets`
re-seeds them from the queued options. -/
theorem C1_releasing_to_flow_counterexample :
    (update { initSys 100 with
        phase := Phase.releasing,
        pendingFlowPattern := some "organic",
        pendingFlowOptions := { spring := some 0.1 } } 0.016 1 none).phase = Phase.flow ∧
    (update { initSys 100 with
        phase := Phase.releasing,
        pendingFlowPattern := some "organic",
        pendingFlowOptions := { spring := some 0.1 } } 0.016 1 none).physicsOverrides
      ≠ none := by
  obtain ⟨f1, -, -, -, -, -, -, -, f9⟩ :=
    update_releasing_fire { initSys 100 with
        phase := Phase.releasing,
        pendingFlowPattern := some "organic",
        pendingFlowOptions := { spring := some 0.1 } } 0.016 1 none rfl rfl
      (nextConvergenceA_still _ 0.016 1 none rfl rfl rfl)
  refine ⟨f1, ?_⟩
  rw [f9]
  simp [extractPhysicsOverrides]

/-- Witness for the amended C1 with a queued pattern and no queued
physics options. -/
theorem C1_releasing_to_flow_witness :
    ({ initSys 100 with
        phase := Phase.releasing,
        pendingFlowPattern := some "cubeWave" } : Sys).phase = Phase.releasing ∧
    nextConvergenceA (preConvergenceState
      { initSys 100 with
        phase := Phase.releasing,
        pendingFlowPattern := some "cubeWave" } 0.016 1 none) < 0.02 ∧
    (update { initSys 100 with
        phase := Phase.releasing,
        pendingFlowPattern := some "cubeWave" } 0.016 1 none).currentFlowPattern
      = "cubeWave" ∧
    (update { initSys 100 with
        phase := Phase.releasing,
        pendingFlowPattern := some "cubeWave" } 0.016 1 none).physicsOverrides = none := by
  refine ⟨rfl, nextConvergenceA_still _ 0.016 1 none rfl rfl rfl, ?_, ?_⟩
  · exact (C1_releasing_to_flow _ 0.016 1 none rfl rfl
      (nextConvergenceA_still _ 0.016 1 none rfl rfl rfl)).2.2.2.2.2.2.1
  · rw [(C1_releasing_to_flow _ 0.016 1 none rfl rfl
      (nextConvergenceA_still _ 0.016 1 none rfl rfl rfl)).2.2.2.2.2.2.2.2]
    simp [extractPhysicsOverrides, initSys]

lemma textToReleasing_convergence (s : Sys) (et : ℚ) :
    (textToReleasing s et).convergence = s.convergence := by
  obtain ⟨a, b, h⟩ := textToReleasing_ex s et
  rw [h]

/-- The text→releasing tick of `update`, including the same-tick
pass-through to `flow` when the updated convergence is already below
0.02. -/
lemma update_text_release (s : Sys) (dt et : ℚ) (mt : Option ℚ)
    (hphase : s.phase = Phase.text)
    (hlast : 0 < s.lastTextTime)
    (hform : s.formationPending = false)
    (hhold : et - s.lastTextTime > s.holdDurationOverride.getD s.textHoldDuration) :
    (0.02 ≤ nextConvergenceA (preConvergenceState s dt et mt) →
      (update s dt et mt).phase = Phase.releasing ∧
      (update s dt et mt).targetConvergence = 0) ∧
    (nextConvergenceA (preConvergenceState s dt et mt) < 0.02 →
      (update s dt et mt).phase = Phase.flow ∧
      (update s dt et mt).targetConvergence = 0.10) := by
  have hmidphase :
      (slotBStep (sweepStepA (convergenceStepA (preConvergenceState s dt et mt))) et).phase
        = Phase.text := by
    rw [slotBStep_phase]
    show (preConvergenceState s dt et mt).phase = Phase.text
    rw [preConvergenceState_phase]
    exact hphase
  have hmidpend :
      (slotBStep (sweepStepA (convergenceStepA (preConvergenceState s dt et mt))) et).formationPending
        = false := by
    rw [slotBStep_formationPending]
    show (preConvergenceState s dt et mt).formationPending = false
    rw [preConvergenceState_formationPending]
    exact hform
  have hmidconv :
      (slotBStep (sweepStepA (convergenceStepA (preConvergenceState s dt et mt))) et).convergence
        = nextConvergenceA (preConvergenceState s dt et mt) := by
    rw [slotBStep_convergence]
    rfl
  have hmidlast :
      (slotBStep (sweepStepA (convergenceStepA (preConvergenceState s dt et mt))) et).lastTextTime
        = s.lastTextTime := by
    rw [slotBStep_lastTextTime]
    show (preConvergenceState s dt et mt).lastTextTime = s.lastTextTime
    rw [preConvergenceState_lastTextTime]
  have hmidhold :
      (slotBStep (sweepStepA (convergenceStepA (preConvergenceState s dt et mt))) et).holdDurationOverride
        = s.holdDurationOverride := by
    rw [slotBStep_holdDurationOverride]
    show (preConvergenceState s dt et mt).holdDurationOverride = s.holdDurationOverride
    rw [preConvergenceState_holdDurationOverride]
  have hmidthd :
      (slotBStep (sweepStepA (convergenceStepA (preConvergenceState s dt et mt))) et).textHoldDuration
        = s.textHoldDuration := by
    rw [slotBStep_textHoldDuration]
    show (preConvergenceState s dt et mt).textHoldDuration = s.textHoldDuration
    rw [preConvergenceState_textHoldDuration]
  unfold update
  rw [formationStep_not_pending _ et hmidpend]
  rw [animFlowStep_of_phase_ne _ et (by rw [hmidphase]; decide)]
  rw [textTimeStep_of_lastTextTime_ne _ et (by rw [hmidlast]; exact (ne_of_lt hlast).symm)]
  rw [textToReleasing_fire _ et hmidphase (by rw [hmidlast]; exact hlast)
      (by rw [hmidlast, hmidhold, hmidthd]; exact hhold)]
  constructor
  · intro hge
    rw [releasingToFlow_skip _ ?hskip]
    case hskip =>
      rintro ⟨-, hlt2⟩
      have h5 : nextConvergenceA (preConvergenceState s dt et mt) < 0.02 := by
        rw [← hmidconv]
        exact hlt2
      exact absurd h5 (not_lt.mpr hge)
    exact ⟨rfl, rfl⟩
  · intro hlt
    obtain ⟨f1, f2, -, -, -, -, -, -, -, -, -, -⟩ :=
      releasingToFlow_fire
        { slotBStep (sweepStepA (convergenceStepA (preConvergenceState s dt et mt))) et with
          phase := Phase.releasing, targetConvergence := 0 } rfl
        (by
          show (slotBStep (sweepStepA (convergenceStepA (preConvergenceState s dt et mt)))
            et).convergence < 0.02
          rw [hmidconv]
          exact hlt)
    exact ⟨f1, f2⟩

/-- Claim C2 (amended): in phase `text`, on the first tick where
`elapsedTime − lastTextTime` strictly exceeds the hold duration (the
per-command override, else the constructor default of 2.5s), `update`
moves the phase to `releasing` with `targetConvergence` 0 — unless the
freshly updated convergence is already below 0.02, in which case the same
tick continues the release and ends in `flow` with `targetConvergence`
0.10. -/
theorem C2_text_to_releasing (s : Sys) (dt et : ℚ) (mt : Option ℚ)
    (hphase : s.phase = Phase.text)
    (hlast : 0 < s.lastTextTime)
    (hform : s.formationPending = false)
    (hhold : et - s.lastTextTime > s.holdDurationOverride.getD s.textHoldDuration) :
    (0.02 ≤ nextConvergenceA (preConvergenceState s dt et mt) →
      (update s dt et mt).phase = Phase.releasing ∧
      (update s dt et mt).targetConvergence = 0) ∧
    (nextConvergenceA (preConvergenceState s dt et mt) < 0.02 →
      (update s dt et mt).phase = Phase.flow ∧
      (update s dt et mt).targetConvergence = 0.10) ∧
    (initSys 1000000).textHoldDuration = 2.5 := by
  obtain ⟨h1, h2⟩ := update_text_release s dt et mt hphase hlast hform hhold
  exact ⟨h1, h2, rfl⟩

lemma nextConvergenceA_clamped_small (s : Sys) (dt et : ℚ) (mt : Option ℚ)
    (hm : s.maxConvergence = 0.01) :
    nextConvergenceA (preConvergenceState s dt et mt) < 0.02 := by
  obtain ⟨ms, ud, ns, nc, sp, da, vo, wa, gr, up, h⟩ := preConvergenceState_ex s dt et mt
  rw [h]
  simp only [nextConvergenceA, hm]
  rw [if_pos (by norm_num)]
  exact lt_of_le_of_lt (min_le_right _ _) (by norm_num)

/-- Counterexample to C2 as stated: with a per-lyric convergence ceiling
of 0.01, the first tick past the hold does not END in `releasing` with
`targetConvergence` 0 — the clamped convergence is already below 0.02, so
the same `update` call passes straight through to `flow` with
`targetConvergence` 0.10. -/
theorem C2_text_to_releasing_counterexample :
    (update { initSys 100 with
        phase := Phase.text, convergence := 0.01, targetConvergence := 1,
        maxConvergence := 0.01, lastTextTime := 1 } 0.016 10 none).phase
      ≠ Phase.releasing ∧
    (update { initSys 100 with
        phase := Phase.text, convergence := 0.01, targetConvergence := 1,
        maxConvergence := 0.01, lastTextTime := 1 } 0.016 10 none).targetConvergence
      ≠ 0 := by
  obtain ⟨-, h2⟩ := update_text_release { initSys 100 with
      phase := Phase.text, convergence := 0.01, targetConvergence := 1,
      maxConvergence := 0.01, lastTextTime := 1 } 0.016 10 none rfl
    (by show (0 : ℚ) < 1; norm_num) rfl
    (by show (10 : ℚ) - 1 > (2.5 : ℚ); norm_num)
  obtain ⟨hp, ht⟩ := h2 (nextConvergenceA_clamped_small _ 0.016 10 none rfl)
  constructor
  · rw [hp]
    decide
  · rw [ht]
    norm_num

lemma nextConvergenceA_frozen (s : Sys) (dt et : ℚ) (mt : Option ℚ)
    (hc : s.convergence = 0.5) (ht : s.targetConvergence = 0)
    (hr : s.releaseSpeed = 0) (hm : s.maxConvergence = 1) :
    0.02 ≤ nextConvergenceA (preConvergenceState s dt et mt) := by
  obtain ⟨ms, ud, ns, nc, sp, da, vo, wa, gr, up, h⟩ := preConvergenceState_ex s dt et mt
  rw [h]
  simp only [nextConvergenceA, convSpeedA, hc, ht, hr, hm]
  norm_num

/-- Witness for the amended C2: a held text one tick past its hold window
moves to `releasing`. -/
theorem C2_text_to_releasing_witness :
    (0 : ℚ) < ({ initSys 100 with
        phase := Phase.text, convergence := 0.5,
        lastTextTime := 1, releaseSpeed := 0 } : Sys).lastTextTime ∧
    (update { initSys 100 with
        phase := Phase.text, convergence := 0.5,
        lastTextTime := 1, releaseSpeed := 0 } 0.016 10 none).phase
      = Phase.releasing := by
  refine ⟨by show (0 : ℚ) < 1; norm_num, ?_⟩
  exact ((C2_text_to_releasing _ 0.016 10 none rfl (by show (0 : ℚ) < 1; norm_num) rfl
    (by show (10 : ℚ) - 1 > (2.5 : ℚ); norm_num)).1
    (nextConvergenceA_frozen _ 0.016 10 none rfl rfl rfl rfl)).1

lemma formationStep_convergence (s : Sys) (et : ℚ) :
    (formationStep s et).convergence = s.convergence := by
  obtain ⟨a, b, c, d, e, h⟩ := formationStep_ex s et
  rw [h]

lemma animFlowStep_convergence (s : Sys) (et : ℚ) :
    (animFlowStep s et).convergence = s.convergence := by
  obtain ⟨a, b, h⟩ := animFlowStep_ex s et
  rw [h]

lemma textTimeStep_convergence (s : Sys) (et : ℚ) :
    (textTimeStep s et).convergence = s.convergence := by
  obtain ⟨a, h⟩ := textTimeStep_ex s et
  rw [h]

lemma update_convergence (s : Sys) (dt et : ℚ) (mt : Option ℚ) :
    (update s dt et mt).convergence = nextConvergenceA (preConvergenceState s dt et mt) := by
  unfold update
  rw [releasingToFlow_convergence, textToReleasing_convergence, textTimeStep_convergence,
      animFlowStep_convergence, formationStep_convergence, slotBStep_convergence]
  rfl

lemma preConvergenceState_convergence (s : Sys) (dt et : ℚ) (mt : Option ℚ) :
    (preConvergenceState s dt et mt).convergence = s.convergence := by
  obtain ⟨ms, ud, ns, nc, sp, da, vo, wa, gr, up, h⟩ := preConvergenceState_ex s dt et mt
  rw [h]

lemma preConvergenceState_targetConvergence (s : Sys) (dt et : ℚ) (mt : Option ℚ) :
    (preConvergenceState s dt et mt).targetConvergence = s.targetConvergence := by
  obtain ⟨ms, ud, ns, nc, sp, da, vo, wa, gr, up, h⟩ := preConvergenceState_ex s dt et mt
  rw [h]

lemma preConvergenceState_maxConvergence (s : Sys) (dt et : ℚ) (mt : Option ℚ) :
    (preConvergenceState s dt et mt).maxConvergence = s.maxConvergence := by
  obtain ⟨ms, ud, ns, nc, sp, da, vo, wa, gr, up, h⟩ := preConvergenceState_ex s dt et mt
  rw [h]

lemma preConvergenceState_releaseSpeed (s : Sys) (dt et : ℚ) (mt : Option ℚ) :
    (preConvergenceState s dt et mt).releaseSpeed = s.releaseSpeed := by
  obtain ⟨ms, ud, ns, nc, sp, da, vo, wa, gr, up, h⟩ := preConvergenceState_ex s dt et mt
  rw [h]

lemma preConvergenceState_convDnScale (s : Sys) (dt et : ℚ) (mt : Option ℚ) :
    (preConvergenceState s dt et mt).convDnScale = s.convDnScale := by
  obtain ⟨ms, ud, ns, nc, sp, da, vo, wa, gr, up, h⟩ := preConvergenceState_ex s dt et mt
  rw [h]

lemma pre_convDn_eval (s : Sys) (dt et : ℚ) (mt : Option ℚ)
    (hov : s.physicsOverrides = none)
    (hrow : (macroPhaseAt (authoredTime et mt)).convDn = s.macroState.convDn) :
    (preConvergenceState s dt et mt).macroState.convDn = s.macroState.convDn := by
  rw [preConvergenceState_macroState]
  simp [macroTick, hov, hrow]

lemma nextConvergenceA_down_eval (s : Sys) (dt et : ℚ) (mt : Option ℚ)
    (hov : s.physicsOverrides = none)
    (hrow : (macroPhaseAt (authoredTime et mt)).convDn = s.macroState.convDn)
    (hnr : ¬ s.targetConvergence > s.convergence)
    (hm : ¬ s.maxConvergence < 1) :
    nextConvergenceA (preConvergenceState s dt et mt)
      = s.convergence + (s.targetConvergence - s.convergence)
        * (s.macroState.convDn * s.convDnScale * s.releaseSpeed) := by
  unfold nextConvergenceA convSpeedA
  rw [preConvergenceState_convergence, preConvergenceState_targetConvergence,
      preConvergenceState_maxConvergence, preConvergenceState_releaseSpeed,
      preConvergenceState_convDnScale, pre_convDn_eval s dt et mt hov hrow,
      if_neg hnr, if_neg hm]

/-- Claim C7 (amended): on every tick the post-update group convergence is
exactly the eased-then-clamped value; the clamp applies only from above
and only when `maxConvergence < 1.0` (there is no assertion and no lower
clamp at 0) — yet the value stays in `[0, maxConvergence]` for ANY
`maxConvergence` whenever the effective speed lies in [0, 1] and the
current and target convergences lie in `[0, maxConvergence]` (the easing
step is a convex combination, so the clamp is not needed for the bound),
for both groups. -/
theorem C7_convergence_clamp (s : Sys) (dt et : ℚ) (mt : Option ℚ) (b : SlotB) :
    (update s dt et mt).convergence = nextConvergenceA (preConvergenceState s dt et mt) ∧
    (s.maxConvergence < 1 → nextConvergenceA s ≤ s.maxConvergence) ∧
    (s.convergence ≤ s.maxConvergence → s.targetConvergence ≤ s.maxConvergence →
      0 ≤ convSpeedA s → convSpeedA s ≤ 1 →
      nextConvergenceA s ≤ s.maxConvergence) ∧
    (0 ≤ s.convergence → 0 ≤ s.targetConvergence → 0 ≤ s.maxConvergence →
      0 ≤ convSpeedA s → convSpeedA s ≤ 1 → 0 ≤ nextConvergenceA s) ∧
    (b.maxConvergence < 1 → (slotBEase s b).convergence ≤ b.maxConvergence) ∧
    (b.convergence ≤ b.maxConvergence → b.targetConvergence ≤ b.maxConvergence →
      0 ≤ (if b.targetConvergence > b.convergence then s.macroState.convUp
           else s.macroState.convDn * b.releaseSpeed) →
      (if b.targetConvergence > b.convergence then s.macroState.convUp
       else s.macroState.convDn * b.releaseSpeed) ≤ 1 →
      (slotBEase s b).convergence ≤ b.maxConvergence) ∧
    (0 ≤ b.convergence → 0 ≤ b.targetConvergence → 0 ≤ b.maxConvergence →
      0 ≤ (if b.targetConvergence > b.convergence then s.macroState.convUp
           else s.macroState.convDn * b.releaseSpeed) →
      (if b.targetConvergence > b.convergence then s.macroState.convUp
       else s.macroState.convDn * b.releaseSpeed) ≤ 1 →
      0 ≤ (slotBEase s b).convergence) := by
  refine ⟨update_convergence s dt et mt, ?_, ?_, ?_, ?_, ?_, ?_⟩
  · intro hmax
    unfold nextConvergenceA
    rw [if_pos hmax]
    exact min_le_right _ _
  · intro hcm htm hs0 hs1
    have hc1 : s.convergence + (s.targetConvergence - s.convergence) * convSpeedA s
        ≤ s.maxConvergence := by
      nlinarith [mul_nonneg (sub_nonneg.mpr htm) hs0,
        mul_nonneg (sub_nonneg.mpr hcm) (by linarith : (0 : ℚ) ≤ 1 - convSpeedA s)]
    unfold nextConvergenceA
    split_ifs with hmax
    · exact min_le_of_left_le hc1
    · exact hc1
  · intro hc ht hm hs0 hs1
    have hc1 : 0 ≤ s.convergence + (s.targetConvergence - s.convergence) * convSpeedA s := by
      nlinarith [mul_nonneg ht hs0, mul_nonneg hc (by linarith : (0 : ℚ) ≤ 1 - convSpeedA s)]
    unfold nextConvergenceA
    split_ifs with hmax
    · exact le_min hc1 hm
    · exact hc1
  · intro hmax
    simp only [slotBEase]
    rw [if_pos hmax]
    exact min_le_right _ _
  · intro hcm htm hs0 hs1
    have hc1 : b.convergence + (b.targetConvergence - b.convergence)
        * (if b.targetConvergence > b.convergence then s.macroState.convUp
           else s.macroState.convDn * b.releaseSpeed) ≤ b.maxConvergence := by
      nlinarith [mul_nonneg (sub_nonneg.mpr htm) hs0,
        mul_nonneg (sub_nonneg.mpr hcm) (by linarith : (0 : ℚ)
          ≤ 1 - (if b.targetConvergence > b.convergence then s.macroState.convUp
                 else s.macroState.convDn * b.releaseSpeed))]
    simp only [slotBEase]
    by_cases hmax : b.maxConvergence < 1
    · rw [if_pos hmax]
      exact min_le_of_left_le hc1
    · rw [if_neg hmax]
      exact hc1
  · intro hc ht hm hs0 hs1
    have hc1 : 0 ≤ b.convergence + (b.targetConvergence - b.convergence)
        * (if b.targetConvergence > b.convergence then s.macroState.convUp
           else s.macroState.convDn * b.releaseSpeed) := by
      nlinarith [mul_nonneg ht hs0,
        mul_nonneg hc (by linarith : (0 : ℚ)
          ≤ 1 - (if b.targetConvergence > b.convergence then s.macroState.convUp
                 else s.macroState.convDn * b.releaseSpeed))]
    simp only [slotBEase]
    by_cases hmax : b.maxConvergence < 1
    · rw [if_pos hmax]
      exact le_min hc1 hm
    · rw [if_neg hmax]
      exact hc1

/-- Counterexample to C7 as stated: with a per-lyric `releaseSpeed` of
600 the effective down speed exceeds 1 and a tick drives the convergence
to −0.7, outside `[0, maxConvergence]`; nothing clamps it because the
lower bound is never enforced and `maxConvergence = 1.0` disables the
upper clamp entirely. -/
theorem C7_convergence_clamp_counterexample :
    (update { initSys 100 with
        phase := Phase.flow, convergence := 0.5, releaseSpeed := 600,
        uGPUPatternId := 1 } 0.016 1 none).convergence < 0 ∧
    ({ initSys 100 with
        phase := Phase.flow, convergence := 0.5, releaseSpeed := 600,
        uGPUPatternId := 1 } : Sys).maxConvergence = 1 := by
  constructor
  · rw [update_convergence,
        nextConvergenceA_down_eval _ 0.016 1 none rfl
          (by norm_num [macroPhaseAt, findActiveRow, MACRO_PHASES, lastMacroRow,
            authoredTime, initSys])
          (by show ¬ (0 : ℚ) > 0.5; norm_num)
          (by show ¬ (1 : ℚ) < 1; norm_num)]
    show (0.5 : ℚ) + (0 - 0.5) * (0.004 * 1 * 600) < 0
    norm_num
  · rfl

/-- Witness for the amended C7: a ceiling of 0.5 does clamp from above, and
at the default ceiling 1.0 (where the code never clamps) the convex easing
step still keeps the constructor state's convergence below the ceiling. -/
theorem C7_convergence_clamp_witness :
    ({ initSys 100 with maxConvergence := 0.5 } : Sys).maxConvergence < 1 ∧
    nextConvergenceA { initSys 100 with maxConvergence := 0.5 }
      ≤ ({ initSys 100 with maxConvergence := 0.5 } : Sys).maxConvergence ∧
    nextConvergenceA (initSys 100) ≤ (initSys 100).maxConvergence := by
  refine ⟨by show (0.5 : ℚ) < 1; norm_num, ?_, ?_⟩
  · exact (C7_convergence_clamp { initSys 100 with maxConvergence := 0.5 }
      0.016 1 none slotBReset).2.1 (by show (0.5 : ℚ) < 1; norm_num)
  · exact (C7_convergence_clamp (initSys 100) 0.016 1 none slotBReset).2.2.1
      (by show (0 : ℚ) ≤ 1; norm_num) (by show (0 : ℚ) ≤ 1; norm_num)
      (by norm_num [convSpeedA, initSys]) (by norm_num [convSpeedA, initSys])

/-- Full characterization of a `particleGroup: 1` `setText` call: group A's
phase state is untouched, the split index becomes `⌊N/2⌋`, and the new
text state lands in slot B. -/
lemma setText_group1_facts (s : Sys) (text : String) (o : Options)
    (htext : text ≠ "") (hpg : o.particleGroup = 1) :
    (setTextTarget s text o).phase = s.phase ∧
    (setTextTarget s text o).convergence = s.convergence ∧
    (setTextTarget s text o).targetConvergence = s.targetConvergence ∧
    (setTextTarget s text o).lastTextTime = s.lastTextTime ∧
    (setTextTarget s text o).maxConvergence = s.maxConvergence ∧
    (setTextTarget s text o).holdDurationOverride = s.holdDurationOverride ∧
    (setTextTarget s text o).releaseSpeed = s.releaseSpeed ∧
    (setTextTarget s text o).charData = s.charData ∧
    (setTextTarget s text o).splitPoint = s.count / 2 ∧
    (setTextTarget s text o).uGroupSplit = s.count / 2 ∧
    (setTextTarget s text o).slotB.phase = Phase.text ∧
    (setTextTarget s text o).slotB.targetConvergence = 1 ∧
    (setTextTarget s text o).slotB.lastTextTime = 0 ∧
    (setTextTarget s text o).slotB.formationPending = false ∧
    (setTextTarget s text o).slotB.maxConvergence = o.maxConvergence.getD 1 ∧
    (setTextTarget s text o).slotB.holdDurationOverride = o.holdDuration ∧
    (setTextTarget s text o).slotB.releaseSpeed = o.releaseSpeed.getD 1 ∧
    (setTextTarget s text o).slotB.dissolveMode = o.dissolveMode ∧
    (setTextTarget s text o).slotB.charData
      = some (buildCharData (s.count / 2) (s.count - s.count / 2) text.toList.length) ∧
    (setTextTarget s text o).targetBufferWrites = s.targetBufferWrites + 1 := by
  simp only [setTextTarget, setTextSplitStep, setTextBg, setTextSlotB, resetToSingleLayer,
    hpg, htext]
  norm_num

/-- Claim C8: calling `setText` with `particleGroup: 1` while group A is
holding text leaves group A's phase, convergence and targetConvergence
(and its per-lyric hold state) unchanged, writes the new text state only
into group B's slot (phase, convergence targets, hold/release overrides,
character records) and sets the split index to `⌊N/2⌋`. -/
theorem C8_groupB_setText (s : Sys) (text : String) (o : Options)
    (htext : text ≠ "") (hpg : o.particleGroup = 1) (_hphase : s.phase = Phase.text) :
    (setTextTarget s text o).phase = s.phase ∧
    (setTextTarget s text o).convergence = s.convergence ∧
    (setTextTarget s text o).targetConvergence = s.targetConvergence ∧
    (setTextTarget s text o).lastTextTime = s.lastTextTime ∧
    (setTextTarget s text o).maxConvergence = s.maxConvergence ∧
    (setTextTarget s text o).holdDurationOverride = s.holdDurationOverride ∧
    (setTextTarget s text o).releaseSpeed = s.releaseSpeed ∧
    (setTextTarget s text o).charData = s.charData ∧
    (setTextTarget s text o).splitPoint = s.count / 2 ∧
    (setTextTarget s text o).uGroupSplit = s.count / 2 ∧
    (setTextTarget s text o).slotB.phase = Phase.text ∧
    (setTextTarget s text o).slotB.targetConvergence = 1 ∧
    (setTextTarget s text o).slotB.maxConvergence = o.maxConvergence.getD 1 ∧
    (setTextTarget s text o).slotB.holdDurationOverride = o.holdDuration ∧
    (setTextTarget s text o).slotB.releaseSpeed = o.releaseSpeed.getD 1 ∧
    (setTextTarget s text o).slotB.dissolveMode = o.dissolveMode ∧
    (setTextTarget s text o).slotB.charData
      = some (buildCharData (s.count / 2) (s.count - s.count / 2) text.toList.length) := by
  obtain ⟨h1, h2, h3, h4, h5, h6, h7, h8, h9, h10, h11, h12, -, -, h15, h16, h17, h18,
    h19, -⟩ := setText_group1_facts s text o htext hpg
  exact ⟨h1, h2, h3, h4, h5, h6, h7, h8, h9, h10, h11, h12, h15, h16, h17, h18, h19⟩

/-- Witness for C8 at a concrete mid-hold state. -/
theorem C8_groupB_setText_witness :
    ("AB" : String) ≠ "" ∧
    ({ particleGroup := 1 } : Options).particleGroup = 1 ∧
    (setTextTarget { initSys 10 with phase := Phase.text } "AB"
      { particleGroup := 1 }).phase = Phase.text ∧
    (setTextTarget { initSys 10 with phase := Phase.text } "AB"
      { particleGroup := 1 }).splitPoint = 5 ∧
    (setTextTarget { initSys 10 with phase := Phase.text } "AB"
      { particleGroup := 1 }).slotB.phase = Phase.text := by
  obtain ⟨h1, -, -, -, -, -, -, -, h9, -, h11, -⟩ :=
    C8_groupB_setText { initSys 10 with phase := Phase.text } "AB"
      { particleGroup := 1 } (by decide) rfl rfl
  refine ⟨by decide, rfl, ?_, ?_, h11⟩
  · rw [h1]
  · rw [h9]
    decide

lemma setFlowTargets_currentFlowPattern (s : Sys) (p : String) (o : Options) :
    (setFlowTargets s p o).currentFlowPattern = p := by
  simp only [setFlowTargets]
  split <;> rfl

lemma setFlowTargets_pendingFlowPattern (s : Sys) (p : String) (o : Options) :
    (setFlowTargets s p o).pendingFlowPattern = s.pendingFlowPattern := by
  simp only [setFlowTargets]
  split <;> rfl

lemma setFlowTargets_targetConvergence (s : Sys) (p : String) (o : Options) :
    (setFlowTargets s p o).targetConvergence = s.targetConvergence := by
  simp only [setFlowTargets]
  split <;> rfl

lemma setFlowTargets_uGPUPatternId_pos (s : Sys) (p : String) (o : Options)
    (h : GPU_PATTERN_IDS p ≠ 0) :
    (setFlowTargets s p o).uGPUPatternId = GPU_PATTERN_IDS p := by
  simp only [setFlowTargets]
  rw [if_pos h]

/-- Claim C3 (amended): a `setMode('flow', …)` call from phase `flow`
applies the pattern immediately; from `text`/`forming` it only records
the request as the pending flow pattern and options, leaving the pattern
uniforms, the multi-layer uniforms and the target buffer untouched.  A
direct `setFlowTargets` call, however, applies immediately in EVERY
phase — it is never deferred. -/
theorem C3_flow_defer (s : Sys) (p : String) (o : Options) (hp : p ≠ "") :
    (s.phase = Phase.flow →
      (setMode s "flow" (some p) o).currentFlowPattern = p ∧
      (setMode s "flow" (some p) o).targetConvergence = 0.10 ∧
      (GPU_PATTERN_IDS p ≠ 0 →
        (setMode s "flow" (some p) o).uGPUPatternId = GPU_PATTERN_IDS p) ∧
      (setMode s "flow" (some p) o).pendingFlowPattern = s.pendingFlowPattern) ∧
    ((s.phase = Phase.text ∨ s.phase = Phase.forming) →
      (setMode s "flow" (some p) o).pendingFlowPattern = some p ∧
      (setMode s "flow" (some p) o).pendingFlowOptions = o ∧
      (setMode s "flow" (some p) o).uGPUPatternId = s.uGPUPatternId ∧
      (setMode s "flow" (some p) o).uNumLayers = s.uNumLayers ∧
      (setMode s "flow" (some p) o).uLayerPatternId0 = s.uLayerPatternId0 ∧
      (setMode s "flow" (some p) o).targetBufferWrites = s.targetBufferWrites ∧
      (setMode s "flow" (some p) o).currentFlowPattern = s.currentFlowPattern) ∧
    ((setFlowTargets s p o).currentFlowPattern = p ∧
      (GPU_PATTERN_IDS p ≠ 0 →
        (setFlowTargets s p o).uGPUPatternId = GPU_PATTERN_IDS p) ∧
      (setFlowTargets s p o).pendingFlowPattern = s.pendingFlowPattern) := by
  have hmode1 : ¬ (("flow" : String) = "text" ∨ ("flow" : String) = "forming") := by decide
  have hmode2 : (("flow" : String) = "flow") := rfl
  have hmode3 : ("flow" : String) ≠ "text" ∧ ("flow" : String) ≠ "forming" := by decide
  refine ⟨fun hf => ?_, fun htf => ?_, setFlowTargets_currentFlowPattern s p o,
    fun h => setFlowTargets_uGPUPatternId_pos s p o h,
    setFlowTargets_pendingFlowPattern s p o⟩
  · have hnd : ¬ (s.phase = Phase.text ∨ s.phase = Phase.forming) := by
      rw [hf]
      decide
    simp only [setMode, if_neg hmode1, if_pos hmode2, if_neg hp, if_neg hnd, if_pos hmode3,
      ite_true, if_true]
    refine ⟨?_, ?_, fun h => ?_, ?_⟩
    · rw [setFlowTargets_currentFlowPattern]
    · rw [setFlowTargets_targetConvergence]
    · rw [setFlowTargets_uGPUPatternId_pos _ _ _ h]
    · rw [setFlowTargets_pendingFlowPattern]
  · simp only [setMode, if_neg hmode1, if_pos hmode2, if_neg hp, if_pos htf, if_pos hmode3,
      ite_true, if_true]
    repeat' apply And.intro
    all_goals trivial

/-- Counterexample to C3 as stated: a direct `setFlowTargets` call while
group A is holding text is applied immediately — it changes the pattern
uniform and records nothing as pending. -/
theorem C3_flow_defer_counterexample :
    ({ initSys 100 with phase := Phase.text } : Sys).phase = Phase.text ∧
    ({ initSys 100 with phase := Phase.text } : Sys).uGPUPatternId = 0 ∧
    (setFlowTargets { initSys 100 with phase := Phase.text } "organic" {}).uGPUPatternId
      = 1 ∧
    (setFlowTargets { initSys 100 with phase := Phase.text } "organic" {}).pendingFlowPattern
      = none := by
  refine ⟨rfl, rfl, ?_, ?_⟩
  · exact setFlowTargets_uGPUPatternId_pos _ _ _ (by decide)
  · rw [setFlowTargets_pendingFlowPattern]
    rfl

/-- Witness for the amended C3: an immediate apply from `flow` and a
deferral from `text`. -/
theorem C3_flow_defer_witness :
    (initSys 100).phase = Phase.flow ∧
    (setMode (initSys 100) "flow" (some "organic") {}).currentFlowPattern = "organic" ∧
    ({ initSys 100 with phase := Phase.text } : Sys).phase = Phase.text ∧
    (setMode { initSys 100 with phase := Phase.text } "flow"
      (some "organic") {}).pendingFlowPattern = some "organic" ∧
    (setMode { initSys 100 with phase := Phase.text } "flow"
      (some "organic") {}).uGPUPatternId = 0 := by
  refine ⟨rfl, ?_, rfl, ?_, ?_⟩
  · exact ((C3_flow_defer (initSys 100) "organic" {} (by decide)).1 rfl).1
  · exact ((C3_flow_defer { initSys 100 with phase := Phase.text } "organic" {}
      (by decide)).2.1 (Or.inl rfl)).1
  · exact ((C3_flow_defer { initSys 100 with phase := Phase.text } "organic" {}
      (by decide)).2.1 (Or.inl rfl)).2.2.1

lemma slotBRecord_phase (b : SlotB) (et : ℚ) : (slotBRecord b et).phase = b.phase := by
  unfold slotBRecord
  split <;> rfl

lemma slotBHold_phase_ne (b : SlotB) (th et : ℚ) (h : b.phase ≠ Phase.forming) :
    (slotBHold b th et).phase ≠ Phase.forming := by
  unfold slotBHold
  split
  · show Phase.releasing ≠ Phase.forming
    decide
  · exact h

lemma slotBRelease_phase_ne (b : SlotB) (h : b.phase ≠ Phase.forming) :
    (slotBRelease b).phase ≠ Phase.forming := by
  unfold slotBRelease
  split
  · show Phase.flow ≠ Phase.forming
    decide
  · exact h

lemma slotBStep_slotB_phase_ne (s : Sys) (et : ℚ) (h : s.slotB.phase ≠ Phase.forming) :
    (slotBStep s et).slotB.phase ≠ Phase.forming := by
  unfold slotBStep
  split
  · show (slotBRelease (slotBHold (slotBRecord (slotBEase s s.slotB) et)
      s.textHoldDuration et)).phase ≠ Phase.forming
    apply slotBRelease_phase_ne
    apply slotBHold_phase_ne
    rw [slotBRecord_phase]
    show s.slotB.phase ≠ Phase.forming
    exact h
  · exact h

lemma preConvergenceState_slotB (s : Sys) (dt et : ℚ) (mt : Option ℚ) :
    (preConvergenceState s dt et mt).slotB = s.slotB := by
  obtain ⟨ms, ud, ns, nc, sp, da, vo, wa, gr, up, h⟩ := preConvergenceState_ex s dt et mt
  rw [h]

lemma formationStep_slotB (s : Sys) (et : ℚ) : (formationStep s et).slotB = s.slotB := by
  obtain ⟨a, b, c, d, e, h⟩ := formationStep_ex s et
  rw [h]

lemma animFlowStep_slotB (s : Sys) (et : ℚ) : (animFlowStep s et).slotB = s.slotB := by
  obtain ⟨a, b, h⟩ := animFlowStep_ex s et
  rw [h]

lemma textTimeStep_slotB (s : Sys) (et : ℚ) : (textTimeStep s et).slotB = s.slotB := by
  obtain ⟨a, h⟩ := textTimeStep_ex s et
  rw [h]

lemma textToReleasing_slotB (s : Sys) (et : ℚ) :
    (textToReleasing s et).slotB = s.slotB := by
  obtain ⟨a, b, h⟩ := textToReleasing_ex s et
  rw [h]

lemma update_slotB_phase_ne (s : Sys) (dt et : ℚ) (mt : Option ℚ)
    (h : s.slotB.phase ≠ Phase.forming) :
    (update s dt et mt).slotB.phase ≠ Phase.forming := by
  unfold update
  rcases releasingToFlow_slotB_cases
      (textToReleasing (textTimeStep (animFlowStep (formationStep
        (slotBStep (sweepStepA (convergenceStepA (preConvergenceState s dt et mt))) et)
        et) et) et) et) with hc | hc
  · rw [hc, textToReleasing_slotB, textTimeStep_slotB, animFlowStep_slotB, formationStep_slotB]
    apply slotBStep_slotB_phase_ne
    show (preConvergenceState s dt et mt).slotB.phase ≠ Phase.forming
    rw [preConvergenceState_slotB]
    exact h
  · rw [hc]
    decide

lemma setTextGroupBApply_slotB_phase (s : Sys) (o : Options)
    (h : s.slotB.phase ≠ Phase.forming) :
    (setTextGroupBApply s o).slotB.phase ≠ Phase.forming := by
  unfold setTextGroupBApply
  split
  · split
    · show Phase.text ≠ Phase.forming
      decide
    · exact h
  · exact h

lemma setTextBg_slotB (s : Sys) (pg : ℕ) (o : Options) (n : ℕ) :
    (setTextBg s pg o n).slotB = s.slotB := by
  unfold setTextBg
  split
  · split
    · split <;> rfl
    · rfl
  · rfl

lemma setTextSplitStep_slotB (s : Sys) (pg : ℕ) (hb : Bool) :
    (setTextSplitStep s pg hb).slotB = s.slotB := by
  unfold setTextSplitStep
  split_ifs <;> rfl

lemma setTextTarget_slotB_phase (s : Sys) (text : String) (o : Options)
    (h : s.slotB.phase ≠ Phase.forming) :
    (setTextTarget s text o).slotB.phase ≠ Phase.forming := by
  simp only [setTextTarget]
  split
  · exact h
  · split
    · show Phase.text ≠ Phase.forming
      decide
    · apply setTextGroupBApply_slotB_phase
      split <;>
        · show (setTextBg _ _ _ _).slotB.phase ≠ Phase.forming
          rw [setTextBg_slotB]
          show (setTextSplitStep s _ _).slotB.phase ≠ Phase.forming
          rw [setTextSplitStep_slotB]
          exact h

lemma setMode_slotB_phase (s : Sys) (m : String) (p : Option String) (o : Options)
    (h : s.slotB.phase ≠ Phase.forming) :
    (setMode s m p o).slotB.phase ≠ Phase.forming := by
  have hreset : ∀ (x : Sys) (q : String) (oo : Options),
      (setFlowTargets x q oo).slotB = slotBReset := by
    intro x q oo
    simp only [setFlowTargets]
    split <;> rfl
  simp only [setMode]
  repeat' split
  all_goals first
    | exact h
    | (simp only [hreset]; decide)

lemma applyOp_slotB_phase (s : Sys) (op : Op) (h : s.slotB.phase ≠ Phase.forming) :
    (applyOp s op).slotB.phase ≠ Phase.forming := by
  cases op with
  | text t o => exact setTextTarget_slotB_phase s t o h
  | sculpture a b o =>
      show (setShadowSculptureTarget s a b o).slotB.phase ≠ Phase.forming
      unfold setShadowSculptureTarget
      split
      · exact h
      · exact h
  | flow p o =>
      have : (setFlowTargets s p o).slotB = slotBReset := by
        simp only [setFlowTargets]
        split <;> rfl
      show (setFlowTargets s p o).slotB.phase ≠ Phase.forming
      rw [this]
      decide
  | multiLayer ls =>
      show (setFlowTargetsMultiLayer s ls).slotB.phase ≠ Phase.forming
      unfold setFlowTargetsMultiLayer
      split
      · exact h
      · exact h
  | mode m p o => exact setMode_slotB_phase s m p o h
  | snap => exact h
  | tick dt et mt => exact update_slotB_phase_ne s dt et mt h

/-- Claim C10: group B's phase never takes the value `forming` under any
command sequence: a `particleGroup: 1` text writes all character targets
at once and drives slot B straight to `text` regardless of the requested
formation animation, and the per-tick slot-B logic only moves
text → releasing → flow. -/
theorem C10_groupB_no_forming :
    (∀ (s : Sys) (text : String) (o : Options), text ≠ "" → o.particleGroup = 1 →
      (setTextTarget s text o).slotB.phase = Phase.text ∧
      (setTextTarget s text o).slotB.formationPending = false ∧
      (setTextTarget s text o).targetBufferWrites = s.targetBufferWrites + 1) ∧
    (∀ (s : Sys) (ops : List Op), s.slotB.phase ≠ Phase.forming →
      (run s ops).slotB.phase ≠ Phase.forming) := by
  constructor
  · intro s text o htext hpg
    obtain ⟨-, -, -, -, -, -, -, -, -, -, h11, -, -, h14, -, -, -, -, -, h20⟩ :=
      setText_group1_facts s text o htext hpg
    exact ⟨h11, h14, h20⟩
  · intro s ops h
    induction ops generalizing s with
    | nil => exact h
    | cons op rest ih => exact ih _ (applyOp_slotB_phase s op h)

/-- Witness for C10: a concrete group-1 text lands slot B in `text`, and a
concrete command trace never shows `forming` on slot B. -/
theorem C10_groupB_no_forming_witness :
    ("AB" : String) ≠ "" ∧
    (setTextTarget (initSys 10) "AB" { particleGroup := 1 }).slotB.phase = Phase.text ∧
    (initSys 10).slotB.phase ≠ Phase.forming ∧
    (run (initSys 10) [Op.text "AB" { particleGroup := 1 }]).slotB.phase
      ≠ Phase.forming := by
  refine ⟨by decide, ?_, by decide, ?_⟩
  · exact ((C10_groupB_no_forming).1 (initSys 10) "AB" { particleGroup := 1 }
      (by decide) rfl).1
  · exact (C10_groupB_no_forming).2 (initSys 10)
      [Op.text "AB" { particleGroup := 1 }] (by decide)


end Nibi
